import Mathlib

/-!
# Verification of the FastOrderLogic order-management backend

A shallow embedding of the Wix synchronization / reconciliation logic
(`backend/routes/wix_sync.py`), order creation (`backend/routes/orders.py`)
and the Zoho invoice pricing rules (`backend/routes/zoho.py`), together with
proofs about the claims of the natural-language specification.

Modelling conventions:
* Python `float` money values are modelled as `ℚ`; `round(x, 2)` is modelled
  as round-half-to-even at two decimals, matching Python semantics on exact
  decimal values.
* JSON payload fields are modelled as `Option`-valued structure fields.
  For sub-objects whose Python truthiness matters (`x or {}` patterns),
  `none` models both a missing key and an empty (falsy) object.
* Timestamps are modelled as abstract `Nat` values.
-/

namespace FastOrderLogic

/-! ## Python-style primitives -/

/-- `a or b` for generic optional values whose truthiness is presence
(dicts / objects: `none` models missing or empty). -/
def oOr {α : Type} : Option α → Option α → Option α
  | some a, _ => some a
  | none, b => b

/-- `a or b` for optional strings, where the empty string is falsy. -/
def sOr : Option String → Option String → Option String
  | some s, b => if s = "" then b else some s
  | none, b => b

/-- Python truthiness of an optional string (`None` and `""` are falsy). -/
def sTruthy (o : Option String) : Bool :=
  match o with
  | some s => s ≠ ""
  | none => false

/-- `x or d` for an optional numeric value: `None` and `0` are falsy. -/
def qOr (o : Option ℚ) (d : ℚ) : ℚ :=
  match o with
  | some q => if q = 0 then d else q
  | none => d

/-- `x or d` for optional integers: `None` and `0` are falsy. -/
def iOr (o : Option Int) (d : Int) : Int :=
  match o with
  | some n => if n = 0 then d else n
  | none => d

/-- `safe_str` from `wix_sync.py`: `None` becomes `""`. -/
def safe_str (o : Option String) : String := o.getD ""

/-- ASCII uppercase of one character. -/
def upChar (c : Char) : Char :=
  if 'a' ≤ c ∧ c ≤ 'z' then Char.ofNat (c.toNat - 32) else c

/-- ASCII lowercase of one character. -/
def lowChar (c : Char) : Char :=
  if 'A' ≤ c ∧ c ≤ 'Z' then Char.ofNat (c.toNat + 32) else c

/-- Python `str.upper()` (ASCII fragment). -/
def pyUpper (s : String) : String := String.mk (s.toList.map upChar)

/-- Python `str.lower()` (ASCII fragment). -/
def pyLower (s : String) : String := String.mk (s.toList.map lowChar)

/-- Python `str.strip()`: drop leading and trailing whitespace. -/
def pyStrip (s : String) : String :=
  String.mk (((s.toList.dropWhile Char.isWhitespace).reverse.dropWhile Char.isWhitespace).reverse)

/-- Round half to even (Python `round`) to an integer. -/
def pyRoundInt (x : ℚ) : ℤ :=
  let f : ℤ := ⌊x⌋
  let r : ℚ := x - f
  if r < 1/2 then f
  else if 1/2 < r then f + 1
  else if Even f then f else f + 1

/-- Python `round(x, 2)` on exact decimal values. -/
def round2 (x : ℚ) : ℚ := (pyRoundInt (100 * x) : ℚ) / 100

/-- Numeric value of a list of decimal digit characters. -/
def digitsVal (l : List Char) : Option ℕ :=
  if l.all Char.isDigit then
    some (l.foldl (fun a c => 10 * a + (c.toNat - 48)) 0)
  else none

/-- Model of Python `float(s)` for plain decimal strings: optional sign,
digits, an optional single decimal point (scientific notation, whitespace
and `inf`/`nan` forms are outside the modelled domain). -/
def parseFloat? (s : String) : Option ℚ :=
  let l := s.toList
  let sl : ℚ × List Char :=
    match l with
    | '-' :: r => (-1, r)
    | '+' :: r => (1, r)
    | _ => (1, l)
  match sl.2.splitOn '.' with
  | [ip] =>
    if ip.isEmpty then none
    else (digitsVal ip).map (fun n => sl.1 * n)
  | [ip, fp] =>
    if ip.isEmpty && fp.isEmpty then none
    else
      (digitsVal ip).bind fun n =>
        (digitsVal fp).map fun m =>
          sl.1 * ((n : ℚ) + (m : ℚ) / ((10 : ℚ) ^ fp.length))
  | _ => none

/-- `re.sub(r'[^\d.\-]', '', s)`: keep only digits, dots and minus signs. -/
def stripPriceChars (s : String) : String :=
  String.mk (s.toList.filter fun c => c.isDigit || c = '.' || c = '-')

/-- Keep only the digit characters of a string (`re.sub(r'\D', '', s)`). -/
def digitsOnly (s : String) : String :=
  String.mk (s.toList.filter Char.isDigit)

/-- Python `f"{n:05d}"`: decimal digits left-padded with zeros to width 5. -/
def zfill5 (n : ℕ) : String :=
  let s := toString n
  String.mk (List.replicate (5 - s.length) '0') ++ s

/-! ## Scalar payload values for price extraction -/

/-- A scalar JSON value appearing in a price-bearing field. -/
inductive PScalar where
  | num (q : ℚ)
  | str (s : String)
deriving DecidableEq, Repr

/-- A price-bearing field value: a scalar, or a dict carrying an `amount`
entry whose value is a scalar.  (Dicts without an `amount` key are outside
the modelled value domain.) -/
inductive PVal where
  | sc (v : PScalar)
  | amt (a : PScalar)
deriving DecidableEq, Repr

/-- The value a raw field contributes after the `amount`-unwrapping step of
`extract_price_value` (line: `if isinstance(v, dict) and "amount" in v`). -/
def unwrapAmount : Option PVal → Option PScalar
  | none => none
  | some (.sc v) => some v
  | some (.amt a) => some a

/-! ## Line items (`lineItems` / `items` entries of a Wix order) -/

/-- A product-name field value: either a plain string or a dict with an
optional `original` entry.  The empty string is falsy for `or`-chains. -/
inductive NameField where
  | plain (s : String)
  | dictOriginal (o : Option String)
deriving DecidableEq, Repr

def NameField.truthy : NameField → Bool
  | .plain s => s ≠ ""
  | .dictOriginal _ => true

/-- The string title obtained from a name field
(`name_field.get("original") if isinstance(name_field, dict) else name_field`). -/
def NameField.title : NameField → String
  | .plain s => s
  | .dictOriginal o => o.getD ""

/-- One Wix line-item dictionary (the fields read by the backend). -/
structure LineItem where
  price : Option PVal := none
  lineItemPriceAmount : Option PScalar := none
  totalPriceAfterTaxAmount : Option PScalar := none
  unitPrice : Option PVal := none
  sellingPrice : Option PVal := none
  total : Option PVal := none
  quantity : Option Int := none
  qty : Option Int := none
  physicalPropertiesSku : Option String := none
  sku : Option String := none
  variantSku : Option String := none
  skuId : Option String := none
  /-- `some inner` models a `catalogReference` dict with optional
  `catalogItemId`; `none` models an absent (or non-dict) value. -/
  catalogReferenceItemId : Option (Option String) := none
  productId : Option String := none
  product_id : Option String := none
  productName : Option NameField := none
  name : Option NameField := none
  title : Option NameField := none
deriving DecidableEq, Repr

/-- A `lineItems` entry as delivered by Wix: a dict, or some non-dict value
(skipped by the loop). -/
inductive LItem where
  | obj (li : LineItem)
  | nonDict
deriving DecidableEq, Repr

def LItem.isObj : LItem → Bool
  | .obj _ => true
  | .nonDict => false

/-! ## `extract_price_value` (wix_sync.py lines 307-334) -/

/-- The seven candidate extractors, in source order.  Candidate 1 reads
`price.amount` when `price` is a dict and `price` itself otherwise; the
raw-value candidates are unwrapped by `unwrapAmount` exactly as the code
unwraps `{"amount": …}` dicts after evaluation. -/
def priceCandidates (li : LineItem) : List (Option PScalar) :=
  [ (match li.price with
     | some (.amt a) => some a
     | some (.sc v) => some v
     | none => none),
    li.lineItemPriceAmount,
    li.totalPriceAfterTaxAmount,
    unwrapAmount li.price,
    unwrapAmount li.unitPrice,
    unwrapAmount li.sellingPrice,
    unwrapAmount li.total ]

/-- Outcome of coercing one candidate value, mirroring the
`try: return float(v) / except: …` block. -/
inductive TryR where
  | val (q : ℚ)
  | zero
  | next
deriving DecidableEq, Repr

/-- `float(v)`, with the fallback that strips non-numeric characters;
an empty stripped string returns `0.0` at once (`return float(s) if s else 0.0`). -/
def tryCoerce : PScalar → TryR
  | .num q => .val q
  | .str s =>
    match parseFloat? s with
    | some q => .val q
    | none =>
      let t := stripPriceChars s
      if t = "" then .zero
      else
        match parseFloat? t with
        | some q => .val q
        | none => .next

/-- The candidate loop of `extract_price_value`. -/
def priceLoop : List (Option PScalar) → ℚ
  | [] => 0
  | none :: rest => priceLoop rest
  | some v :: rest =>
    match tryCoerce v with
    | .val q => q
    | .zero => 0
    | .next => priceLoop rest

/-- `extract_price_value(li)` from `wix_sync.py`. -/
def extract_price_value (li : LineItem) : ℚ :=
  priceLoop (priceCandidates li)

/-- The claim's reading of `extract_price_value`: the first candidate that
can be coerced to a number (directly, or after stripping) wins, and `0.0`
is returned only when no candidate yields a number. -/
def coerceClaim : PScalar → Option ℚ
  | .num q => some q
  | .str s =>
    match parseFloat? s with
    | some q => some q
    | none => parseFloat? (stripPriceChars s)

/-- `extract_price_value` as described verbatim by claim C5. -/
def extract_price_claimed (li : LineItem) : ℚ :=
  ((priceCandidates li).findSome? (fun c => c.bind coerceClaim)).getD 0

/-- The coercion that actually terminates the candidate scan: like the
claim's coercion, except that a non-numeric string whose stripped form is
empty terminates the scan with value `0.0`. -/
def coerceActual : PScalar → Option ℚ
  | .num q => some q
  | .str s =>
    match parseFloat? s with
    | some q => some q
    | none =>
      if stripPriceChars s = "" then some 0
      else parseFloat? (stripPriceChars s)

/-- The amended description of `extract_price_value`. -/
def extract_price_amended (li : LineItem) : ℚ :=
  ((priceCandidates li).findSome? (fun c => c.bind coerceActual)).getD 0

/-- A line item whose `price` is the non-numeric string `"abc"` and whose
`unitPrice` is `5`. -/
def c5Item : LineItem :=
  { price := some (.sc (.str "abc")), unitPrice := some (.sc (.num 5)) }

theorem priceLoop_eq_findSome (cs : List (Option PScalar)) :
    priceLoop cs = ((cs.findSome? (fun c => c.bind coerceActual)).getD 0) := by
  induction cs with
  | nil => rfl
  | cons hd tl ih =>
    cases hd with
    | none => simpa [priceLoop, List.findSome?] using ih
    | some v =>
      cases v with
      | num q => simp [priceLoop, List.findSome?, tryCoerce, coerceActual, Option.bind]
      | str s =>
        simp only [priceLoop, List.findSome?, Option.bind]
        cases hp : parseFloat? s with
        | some q => simp [tryCoerce, coerceActual, hp]
        | none =>
          by_cases hs : stripPriceChars s = ""
          · simp [tryCoerce, coerceActual, hp, hs]
          · cases hq : parseFloat? (stripPriceChars s) with
            | some q => simp [tryCoerce, coerceActual, hp, hs, hq]
            | none => simpa [tryCoerce, coerceActual, hp, hs, hq] using ih

/-! ## Contact / address payload model -/

/-- A `fullName` sub-object of an address. -/
structure NameObj where
  firstName : Option String := none
  lastName : Option String := none
deriving DecidableEq, Repr

/-- An address object from a Wix payload. -/
structure WAddr where
  firstName : Option String := none
  lastName : Option String := none
  fullName : Option NameObj := none
  phone : Option String := none
  email : Option String := none
  addressLine : Option String := none
  addressLine1 : Option String := none
  postalCode : Option String := none
  zipCode : Option String := none
  city : Option String := none
  subdivision : Option String := none
  subdivisionFullname : Option String := none
deriving DecidableEq, Repr

/-- A `contactDetails` object from a Wix payload. -/
structure WContact where
  firstName : Option String := none
  lastName : Option String := none
  phone : Option String := none
  email : Option String := none
deriving DecidableEq, Repr

/-- `shippingInfo.logistics.shippingDestination`. -/
structure ShipDest where
  address : Option WAddr := none
  contactDetails : Option WContact := none
deriving DecidableEq, Repr

/-- `shippingInfo.shipmentDetails`. -/
structure ShipmentDetails where
  address : Option WAddr := none
  contactDetails : Option WContact := none
deriving DecidableEq, Repr

/-- `shippingInfo` (with `logistics` flattened into `shippingDestination`). -/
structure WixShipping where
  shippingDestination : Option ShipDest := none
  shipmentDetails : Option ShipmentDetails := none
  status : Option String := none
  /-- The `shippingInfo.address` value read by the reconcile address check
  (modelled as a string). -/
  address : Option String := none
deriving DecidableEq, Repr

/-- `billingInfo`. -/
structure WixBilling where
  address : Option WAddr := none
  contactDetails : Option WContact := none
  paymentStatus : Option String := none
  /-- `billingInfo.paymentGateway.transactionStatus`. -/
  paymentGatewayTransactionStatus : Option String := none
  /-- `billingInfo.paymentGatewayInfo.status`. -/
  paymentGatewayInfoStatus : Option String := none
deriving DecidableEq, Repr

/-- `buyerInfo`. -/
structure WixBuyer where
  firstName : Option String := none
  lastName : Option String := none
  phone : Option String := none
  email : Option String := none
  addressLine : Option String := none
  address : Option String := none
deriving DecidableEq, Repr

/-- The contact record produced by `_extract_address_info`. -/
structure Contact where
  fullName : Option String := none
  firstName : Option String := none
  lastName : Option String := none
  phone : Option String := none
  email : Option String := none
  addressLine1 : Option String := none
  postalCode : Option String := none
  city : Option String := none
  region : Option String := none
deriving DecidableEq, Repr

/-- `ship_dest.get("address") or shipping.get("shipmentDetails").get("address")`. -/
def shipAddrOf (sh : Option WixShipping) : Option WAddr :=
  oOr ((sh.bind WixShipping.shippingDestination).bind ShipDest.address)
      ((sh.bind WixShipping.shipmentDetails).bind ShipmentDetails.address)

/-- `ship_dest.get("contactDetails") or shipmentDetails.get("contactDetails")`. -/
def shipContactOf (sh : Option WixShipping) : Option WContact :=
  oOr ((sh.bind WixShipping.shippingDestination).bind ShipDest.contactDetails)
      ((sh.bind WixShipping.shipmentDetails).bind ShipmentDetails.contactDetails)

/-- The shipping branch of `_extract_address_info` (reads only shipping data). -/
def contactFromShipping (sa : Option WAddr) (sc : Option WContact) : Contact :=
  let fn := sOr (sc.bind WContact.firstName)
      (sOr ((sa.bind WAddr.fullName).bind NameObj.firstName) (sa.bind WAddr.firstName))
  let ln := sOr (sc.bind WContact.lastName)
      (sOr ((sa.bind WAddr.fullName).bind NameObj.lastName) (sa.bind WAddr.lastName))
  let full := pyStrip (fn.getD "" ++ " " ++ ln.getD "")
  { fullName := if full = "" then none else some full
    firstName := if sTruthy fn then fn else none
    lastName := if sTruthy ln then ln else none
    phone := sOr (sc.bind WContact.phone) (sa.bind WAddr.phone)
    email := sOr (sa.bind WAddr.email) (sc.bind WContact.email)
    addressLine1 := sOr (sa.bind WAddr.addressLine)
      (sOr (sa.bind WAddr.addressLine1) (sa.bind WAddr.addressLine))
    postalCode := sOr (sa.bind WAddr.postalCode) (sa.bind WAddr.zipCode)
    city := sa.bind WAddr.city
    region := sOr (sa.bind WAddr.subdivision) (sa.bind WAddr.subdivisionFullname) }

/-- The billing branch of `_extract_address_info` (reads only billing data). -/
def contactFromBilling (ba : Option WAddr) (bc : Option WContact) : Contact :=
  let fn := sOr (bc.bind WContact.firstName)
      (sOr ((ba.bind WAddr.fullName).bind NameObj.firstName) (ba.bind WAddr.firstName))
  let ln := sOr (bc.bind WContact.lastName)
      (sOr ((ba.bind WAddr.fullName).bind NameObj.lastName) (ba.bind WAddr.lastName))
  let full := pyStrip (fn.getD "" ++ " " ++ ln.getD "")
  { fullName := if full = "" then none else some full
    firstName := if sTruthy fn then fn else none
    lastName := if sTruthy ln then ln else none
    phone := sOr (bc.bind WContact.phone) (ba.bind WAddr.phone)
    email := sOr (ba.bind WAddr.email) (bc.bind WContact.email)
    addressLine1 := sOr (ba.bind WAddr.addressLine)
      (sOr (ba.bind WAddr.addressLine1) (ba.bind WAddr.addressLine))
    postalCode := sOr (ba.bind WAddr.postalCode) (ba.bind WAddr.zipCode)
    city := ba.bind WAddr.city
    region := sOr (ba.bind WAddr.subdivision) (ba.bind WAddr.subdivisionFullname) }

/-- The buyer fallback branch of `_extract_address_info` (reads only buyer data). -/
def contactFromBuyer (bu : Option WixBuyer) : Contact :=
  let fn := (bu.bind WixBuyer.firstName).getD ""
  let ln := (bu.bind WixBuyer.lastName).getD ""
  let full := pyStrip (fn ++ " " ++ ln)
  { fullName := if full = "" then none else some full
    firstName := if fn = "" then none else some fn
    lastName := if ln = "" then none else some ln
    phone := bu.bind WixBuyer.phone
    email := bu.bind WixBuyer.email
    addressLine1 := some ((sOr (bu.bind WixBuyer.addressLine) (bu.bind WixBuyer.address)).getD "")
    postalCode := some ""
    city := some ""
    region := some "" }

/-- `_extract_address_info` from `sync_wix_orders` (wix_sync.py lines 446-500). -/
def extract_address_info (sh : Option WixShipping) (bi : Option WixBilling)
    (bu : Option WixBuyer) : Contact :=
  let sa := shipAddrOf sh
  let sc := shipContactOf sh
  if sa.isSome || sc.isSome then contactFromShipping sa sc
  else
    let ba := bi.bind WixBilling.address
    let bc := bi.bind WixBilling.contactDetails
    if ba.isSome || bc.isSome then contactFromBilling ba bc
    else contactFromBuyer bu

/-! ## Wix order payload -/

/-- The `totals` object of a Wix order.  Monetary values are modelled as
already-parsed rationals. -/
structure WixTotals where
  paymentStatus : Option String := none
  paid : Option ℚ := none
  paymentDue : Option ℚ := none
  total : Option ℚ := none
  subtotal : Option ℚ := none
deriving DecidableEq, Repr

/-- A Wix order payload (the fields the backend reads). -/
structure WixOrder where
  number : Option String := none
  id : Option String := none
  createdDate : Option Nat := none
  billingInfo : Option WixBilling := none
  shippingInfo : Option WixShipping := none
  buyerInfo : Option WixBuyer := none
  totals : Option WixTotals := none
  paymentStatus : Option String := none
  lineItems : Option (List LItem) := none
  items : Option (List LItem) := none
  wbn : Option String := none
  status : Option String := none
deriving DecidableEq, Repr

/-- `w.get("lineItems") or w.get("items") or []` (an empty list is falsy). -/
def lineItemsOf (w : WixOrder) : List LItem :=
  match w.lineItems with
  | some (x :: xs) => x :: xs
  | _ =>
    match w.items with
    | some (y :: ys) => y :: ys
    | _ => []

/-- `(totals.paymentStatus or billingInfo.paymentStatus or w.paymentStatus or "").upper()`. -/
def wixPaymentStatusRaw (w : WixOrder) : String :=
  pyUpper ((sOr (w.totals.bind WixTotals.paymentStatus)
      (sOr (w.billingInfo.bind WixBilling.paymentStatus) w.paymentStatus)).getD "")

/-- `(billingInfo.paymentGateway.transactionStatus or billingInfo.paymentGatewayInfo.status or "").upper()`. -/
def wixGatewayStatusRaw (w : WixOrder) : String :=
  pyUpper ((sOr (w.billingInfo.bind WixBilling.paymentGatewayTransactionStatus)
      (w.billingInfo.bind WixBilling.paymentGatewayInfoStatus)).getD "")

/-- `float(totals.get("paid") or 0)`. -/
def wixPaidAmount (w : WixOrder) : ℚ :=
  (w.totals.bind WixTotals.paid).getD 0

/-- `detect_wix_paid_status` from `reconcile_wix_orders` (wix_sync.py lines 824-847). -/
def detect_wix_paid_status (w : WixOrder) : String :=
  if 0 < wixPaidAmount w then "paid"
  else if ["PAID", "ACCEPTED", "SUCCESS"].contains (wixPaymentStatusRaw w) then "paid"
  else if ["SUCCESS", "PAID", "CAPTURED"].contains (wixGatewayStatusRaw w) then "paid"
  else "pending"

/-- The function-local payment variables of `sync_wix_orders` that are
assigned inside the line-item loop (wix_sync.py lines 650-671) and read
after it (lines 673-688).  They persist across loop iterations of the
per-order loop, so an order without line items sees the values of the last
previously processed line item. -/
structure PayVars where
  paymentStatusRaw : String
  gatewayStatus : String
  paidAmount : ℚ
  totalsPaymentDue : Option ℚ
  totalsTotal : Option ℚ
  totalsSubtotal : Option ℚ
  /-- the value of `is_paid` left by line 670 (`is_paid = False`). -/
  isPaid : Bool
deriving DecidableEq, Repr

/-- The values lines 650-671 assign while processing a line item of `w`. -/
def payVarsOf (w : WixOrder) : PayVars :=
  { paymentStatusRaw := wixPaymentStatusRaw w
    gatewayStatus := wixGatewayStatusRaw w
    paidAmount := wixPaidAmount w
    totalsPaymentDue := w.totals.bind WixTotals.paymentDue
    totalsTotal := w.totals.bind WixTotals.total
    totalsSubtotal := w.totals.bind WixTotals.subtotal
    isPaid := false }

/-- Lines 673-684 of `sync_wix_orders`: the `if/elif` chain leaves `is_paid`
unchanged when no rule fires. -/
def syncIsPaid (pv : PayVars) : Bool :=
  if 0 < pv.paidAmount then true
  else if ["PAID", "ACCEPTED", "SUCCESS"].contains pv.paymentStatusRaw then true
  else if ["SUCCESS", "PAID", "CAPTURED"].contains pv.gatewayStatus then true
  else pv.isPaid

/-- `payment_status = "paid" if is_paid else "pending"`. -/
def syncPaymentStatus (pv : PayVars) : String :=
  if syncIsPaid pv then "paid" else "pending"

/-! ## Relational state -/

/-- A row of the `customer` / `offline_customer` tables. -/
structure CustomerRow where
  customer_id : ℕ
  name : String := ""
  mobile : String := ""
  email : String := ""
  gst_number : Option String := none
deriving DecidableEq, Repr

/-- A row of the `address` table. -/
structure AddressRow where
  address_id : ℕ
  name : String := ""
  mobile : String := ""
  pincode : String := ""
  locality : String := ""
  address_line : String := ""
  city : String := ""
  state_id : ℕ := 1
  address_type : String := "shipping"
  customer_id : Option ℕ := none
  offline_customer_id : Option ℕ := none
  created_at : ℕ := 0
  updated_at : ℕ := 0
  is_available : ℕ := 1
deriving DecidableEq, Repr

/-- A row of the `products` table (descriptive columns the backend never
reads back are omitted). -/
structure ProductRow where
  product_id : ℕ
  name : String := ""
  sku_id : Option String := none
  zoho_sku : Option String := none
deriving DecidableEq, Repr

/-- A row of the `orders` table. -/
structure OrderRow where
  order_id : String
  customer_id : Option ℕ := none
  offline_customer_id : Option ℕ := none
  address_id : ℕ := 0
  total_items : ℕ := 0
  subtotal : ℚ := 0
  total_amount : ℚ := 0
  gst : ℚ := 0
  delivery_charge : Option ℚ := none
  channel : String := ""
  payment_status : String := "pending"
  delivery_status : String := "NOT_SHIPPED"
  payment_type : String := ""
  created_at : ℕ := 0
  updated_at : ℕ := 0
  order_index : ℕ := 0
  upload_wbn : Option String := none
  awb_number : Option String := none
  order_status : Option String := none
  invoice_number : Option String := none
  invoice_id : Option String := none
  remarks : Option String := none
deriving DecidableEq, Repr

/-- A row of the `order_items` table (`model_id`/`color_id` are always NULL). -/
structure ItemRow where
  item_id : ℕ
  order_id : String
  product_id : Option ℕ := none
  quantity : ℤ := 1
  unit_price : ℚ := 0
  total_price : ℚ := 0
deriving DecidableEq, Repr

/-- A row of the `order_details` table. -/
structure OrderDetailRow where
  item_id : ℕ
  order_id : String
  product_id : ℕ
deriving DecidableEq, Repr

/-- A row of the `state` table. -/
structure StateRow where
  state_id : ℕ
  name : String
  abbreviation : String := ""
deriving DecidableEq, Repr

/-- The relational database state.  `next…Id` counters model the
auto-increment sequences (assumed positive). -/
structure DB where
  customers : List CustomerRow := []
  offlineCustomers : List CustomerRow := []
  addresses : List AddressRow := []
  products : List ProductRow := []
  orders : List OrderRow := []
  orderItems : List ItemRow := []
  orderDetails : List OrderDetailRow := []
  states : List StateRow := []
  nextCustomerId : ℕ := 1
  nextOfflineCustomerId : ℕ := 1
  nextAddressId : ℕ := 1
  nextProductId : ℕ := 1
  nextItemId : ℕ := 1
deriving DecidableEq, Repr

/-- SQL `LIKE :pat` with `pat = '%' + s + '%'`: substring containment. -/
def strContains (hay needle : String) : Bool :=
  decide (needle.toList <:+: hay.toList)

/-! ## DB helper functions of wix_sync.py -/

/-- `find_customer`: look up by mobile first, then by email. -/
def find_customer (db : DB) (mobile email : String) : Option CustomerRow :=
  match (if mobile ≠ "" then db.customers.find? (fun c => c.mobile = mobile) else none) with
  | some c => some c
  | none => if email ≠ "" then db.customers.find? (fun c => c.email = email) else none

/-- `upsert_customer`: fill missing fields of an existing row, or create a
row (creation is modelled as always succeeding). Returns the customer id. -/
def upsert_customer (db : DB) (name mobile email : String) : DB × ℕ :=
  match find_customer db mobile email with
  | some ex =>
    let upd : CustomerRow → CustomerRow := fun c =>
      { c with
        name := if name ≠ "" ∧ c.name = "" then name else c.name
        mobile := if mobile ≠ "" ∧ c.mobile = "" then mobile else c.mobile
        email := if email ≠ "" ∧ c.email = "" then email else c.email }
    ({ db with customers := db.customers.map (fun c =>
        if c.customer_id = ex.customer_id then upd c else c) }, ex.customer_id)
  | none =>
    let cid := db.nextCustomerId
    ({ db with
        customers := db.customers ++ [{ customer_id := cid, name := name, mobile := mobile, email := email }]
        nextCustomerId := cid + 1 }, cid)

/-- `find_offline_customer_by_mobile`. -/
def find_offline_customer_by_mobile (db : DB) (mobile : String) : Option CustomerRow :=
  if mobile = "" then none else db.offlineCustomers.find? (fun c => c.mobile = mobile)

/-- `generate_synthetic_mobile`: one above the largest all-digit mobile,
zero-filled to 10 characters. -/
def generate_synthetic_mobile (db : DB) : String :=
  let mx := db.offlineCustomers.foldl
    (fun a c =>
      if c.mobile ≠ "" ∧ c.mobile.toList.all Char.isDigit
      then max a ((digitsVal c.mobile.toList).getD 0) else a) 0
  let s := toString (mx + 1)
  String.mk (List.replicate (10 - s.length) '0') ++ s

/-- `create_or_get_offline_customer`.  The five-attempt candidate loop is
collapsed: the candidate generator depends only on the database, so all
attempts produce the same candidate; the dead timestamp fallback is
modelled from `now`. -/
def offlineLookup (db : DB) (mobile1 : String) : Option CustomerRow :=
  if mobile1 ≠ "" then find_offline_customer_by_mobile db mobile1 else none

def create_or_get_offline_customer (db : DB) (name mobile email : String) (now : ℕ) : DB × ℕ :=
  let mobile1 := if mobile ≠ "" ∧ (pyStrip mobile).length < 7 then "" else mobile
  match offlineLookup db mobile1 with
  | some ex => (db, ex.customer_id)
  | none =>
    let useMobile :=
      if mobile1 ≠ "" then mobile1
      else
        let cand := generate_synthetic_mobile db
        if (find_offline_customer_by_mobile db cand).isNone then cand
        else String.mk (("000" ++ toString now).toList.take 15)
    let cid := db.nextOfflineCustomerId
    ({ db with
        offlineCustomers := db.offlineCustomers ++ [{ customer_id := cid, name := name, mobile := useMobile, email := email }]
        nextOfflineCustomerId := cid + 1 }, cid)

/-- `find_existing_address` (wix_sync.py lines 264-281). -/
def find_existing_address (db : DB) (addr mob pin cty : String) : Option AddressRow :=
  db.addresses.find? (fun a =>
    (a.address_line = addr || strContains a.address_line addr) &&
    (a.mobile = mob || mob = "") &&
    (a.pincode = pin || pin = "") &&
    (a.city = cty || cty = ""))

/-- `find_state_id`: lowercase, drop a trailing comma-part, expand
abbreviations, exact match then substring match. -/
def find_state_id (db : DB) (stateText : Option String) : Option ℕ :=
  match stateText with
  | none => none
  | some s0 =>
    if s0 = "" then none
    else
      let s1 := pyLower (pyStrip s0)
      let s2 := pyStrip (String.mk (s1.toList.takeWhile (fun c => c ≠ ',')))
      let s3 :=
        if s2 = "up" then "uttar pradesh"
        else if s2 = "mh" then "maharashtra"
        else if s2 = "mp" then "madhya pradesh"
        else if s2 = "tn" then "tamil nadu"
        else if s2 = "dl" then "delhi"
        else s2
      match db.states.find? (fun r => pyLower r.name = s3) with
      | some r => some r.state_id
      | none => (db.states.find? (fun r => strContains (pyLower r.name) s3)).map StateRow.state_id

/-- `create_address`: insert a fully-populated row, returning its id. -/
def create_address (db : DB) (row : ℕ → AddressRow) : DB × ℕ :=
  let aid := db.nextAddressId
  ({ db with addresses := db.addresses ++ [row aid], nextAddressId := aid + 1 }, aid)

/-- `is_valid_sku` (length ≥ 2 after strip, not unknown/misc/test). -/
def is_valid_sku (sku : String) : Bool :=
  if sku = "" then false
  else
    let s := pyStrip sku
    if s.length < 2 then false
    else !(["unknown", "misc", "test"].contains (pyLower s))

/-- `find_product_by_sku`. -/
def find_product_by_sku (db : DB) (sku : String) : Option ProductRow :=
  if sku = "" then none else db.products.find? (fun p => p.sku_id = some sku)

/-- Strict decimal ℕ parse, used to model the numeric comparison
`product_id = :w` of `find_product_by_wix_pid`. -/
def parseNat? (s : String) : Option ℕ :=
  if s.isEmpty then none else digitsVal s.toList

/-- `find_product_by_wix_pid` (`sku_id = :w OR product_id = :w`). -/
def find_product_by_wix_pid (db : DB) (w : String) : Option ProductRow :=
  if w = "" then none
  else db.products.find? (fun p => p.sku_id = some w || some p.product_id = parseNat? w)

/-- `find_product_by_name`: exact lowercase match, then substring match. -/
def find_product_by_name (db : DB) (n : String) : Option ProductRow :=
  if n = "" then none
  else
    match db.products.find? (fun p => pyLower p.name = pyLower n) with
    | some p => some p
    | none => db.products.find? (fun p => strContains (pyLower p.name) (pyLower n))

/-- `create_product_fallback`. -/
def create_product_fallback (db : DB) (sku : Option String) (title : String) : DB × ProductRow :=
  let nm := match sku with
    | some s => title ++ " (" ++ s ++ ")"
    | none => title
  let pid := db.nextProductId
  let row : ProductRow := { product_id := pid, name := nm, sku_id := sku }
  ({ db with products := db.products ++ [row], nextProductId := pid + 1 }, row)

/-- `ensure_unknown_product`. -/
def ensure_unknown_product (db : DB) : DB × ProductRow :=
  match db.products.find? (fun p => p.name = "Unknown Product (auto)") with
  | some p => (db, p)
  | none =>
    let pid := db.nextProductId
    let row : ProductRow := { product_id := pid, name := "Unknown Product (auto)" }
    ({ db with products := db.products ++ [row], nextProductId := pid + 1 }, row)

/-- `get_next_order_index`: `MAX(order_index)+1`, or the current timestamp
when the maximum is missing or zero. -/
def get_next_order_index (db : DB) (now : ℕ) : ℕ :=
  let mx := db.orders.foldl (fun a o => max a o.order_index) 0
  if mx = 0 then now else mx + 1

/-! ## sync_wix_orders: per-line-item processing -/

/-- The SKU of a line item
(`physicalProperties.sku or sku or variantSku or skuId or ""`). -/
def liSku (li : LineItem) : String :=
  safe_str (sOr li.physicalPropertiesSku (sOr li.sku (sOr li.variantSku li.skuId)))

/-- The Wix product id of a line item (`catalogReference.catalogItemId` when
`catalogReference` is a dict, else `productId or product_id or ""`). -/
def liWixPid (li : LineItem) : String :=
  match li.catalogReferenceItemId with
  | some inner => safe_str inner
  | none => safe_str (sOr li.productId li.product_id)

/-- `productName or name or title or ""`, unwrapping a `{"original": …}` dict. -/
def nfOr : Option NameField → Option NameField → Option NameField
  | some f, b => if f.truthy then some f else b
  | none, b => b

def liTitle (li : LineItem) : String :=
  match nfOr li.productName (nfOr li.name li.title) with
  | some f => f.title
  | none => ""

/-- `int(li.get("quantity") or li.get("qty") or 1)`. -/
def liQty (li : LineItem) : ℤ :=
  iOr li.quantity (iOr li.qty 1)

/-- The product-resolution cascade of the line-item loop. -/
def resolveProduct (db : DB) (sku wixPid title : String) : DB × ProductRow :=
  match (if is_valid_sku sku then find_product_by_sku db sku else none) with
  | some p => (db, p)
  | none =>
    match (if wixPid ≠ "" then find_product_by_wix_pid db wixPid else none) with
    | some p => (db, p)
    | none =>
      match (if title ≠ "" then find_product_by_name db title else none) with
      | some p => (db, p)
      | none =>
        let t := if title = "" then "Auto Product" else title
        if is_valid_sku sku then create_product_fallback db (some sku) t
        else create_product_fallback db none t

/-- State threaded through the line-item loop. -/
structure LoopSt where
  db : DB
  subtotalSum : ℚ
  pv : Option PayVars
deriving DecidableEq

/-- One iteration of `for li in line_items` (wix_sync.py lines 579-671),
including the payment-variable assignments that live inside the loop body.
A non-dict entry `continue`s before those assignments. -/
def syncLineStep (oid : String) (w : WixOrder) (st : LoopSt) (it : LItem) : LoopSt :=
  match it with
  | .nonDict => st
  | .obj li =>
    let sku := liSku li
    let wixPid := liWixPid li
    let title := liTitle li
    let q := liQty li
    let price := extract_price_value li
    let totalPrice := round2 (q * price)
    let p := resolveProduct st.db sku wixPid title
    let iid := p.1.nextItemId
    let db2 := { p.1 with
      orderItems := p.1.orderItems ++
        [{ item_id := iid, order_id := oid, product_id := some p.2.product_id,
           quantity := q, unit_price := price, total_price := totalPrice }]
      nextItemId := iid + 1 }
    { db := db2, subtotalSum := st.subtotalSum + totalPrice, pv := some (payVarsOf w) }

/-! ## sync_wix_orders: per-order step -/

/-- A `details` entry of the sync response. -/
structure Detail where
  wix_order_id : String
  status : String
  reasons : List String
deriving DecidableEq, Repr

/-- The state of one `sync_wix_orders` request: last committed database,
current session (uncommitted) database, counters, detail list and the
cross-order payment variables. -/
structure SyncSt where
  committed : DB
  pending : DB
  inserted : ℕ
  skipped : ℕ
  details : List Detail
  pv : Option PayVars
deriving DecidableEq

/-- One fetched order plus its environment oracles: the result the remote
`fetch_wix_order_number` call would return, and whether the order
INSERT/UPDATE-and-commit raises a database error. -/
structure SyncInput where
  order : WixOrder
  refetchNumber : Option String := none
  insertFails : Bool := false
deriving DecidableEq

/-- Lines 411-415: `number`, else the re-fetched number, else the UUID. -/
def resolveWixOrderId (inp : SyncInput) : String :=
  safe_str (sOr inp.order.number (sOr inp.refetchNumber inp.order.id))

/-- Record a skipped order. -/
def skipDetail (st : SyncSt) (oid : String) (reason : String) : SyncSt :=
  { st with skipped := st.skipped + 1
            details := st.details ++ [{ wix_order_id := oid, status := "skipped", reasons := [reason] }] }

/-- Lines 673-767: the payment decision, order payload and insert/update.
`pv? = none` models the `NameError` on `paid_amount` for an order without
processed line items when no earlier order set the variables: the outer
handler counts it skipped without rolling back the session. -/
def syncFinish (now : ℕ) (st : SyncSt) (w : WixOrder) (oid : String)
    (existing insertFails : Bool) (dbItems : DB) (subtotalSum : ℚ)
    (pv? : Option PayVars) (customerId offlineCustomerId : Option ℕ)
    (addressId : ℕ) (totalItems : ℕ) (createdAt : ℕ) : SyncSt :=
  match pv? with
  | none =>
    { st with pending := dbItems, skipped := st.skipped + 1
              details := st.details ++
                [{ wix_order_id := safe_str w.id, status := "skipped", reasons := ["unexpected:name_error"] }]
              pv := none }
  | some pv =>
    let paymentStatus := syncPaymentStatus pv
    let paymentDue := qOr pv.totalsPaymentDue (qOr pv.totalsTotal subtotalSum)
    let subtotalVal := qOr pv.totalsSubtotal subtotalSum
    let orderIndex := get_next_order_index dbItems now
    let row : OrderRow :=
      { order_id := oid, customer_id := customerId, offline_customer_id := offlineCustomerId
        address_id := addressId, total_items := totalItems, subtotal := round2 subtotalVal
        total_amount := paymentDue, channel := "wix", payment_status := paymentStatus
        delivery_status := "NOT_SHIPPED", created_at := createdAt, updated_at := createdAt
        order_index := orderIndex, payment_type := "online", gst := 0
        upload_wbn := if sTruthy w.wbn then w.wbn else none }
    if insertFails then
      { st with pending := st.committed, skipped := st.skipped + 1
                details := st.details ++
                  [{ wix_order_id := oid, status := "skipped", reasons := ["order_insert_failed"] }]
                pv := some pv }
    else
      let dbFinal :=
        if existing then
          { dbItems with orders := dbItems.orders.map (fun o =>
              if o.order_id = oid then
                { o with total_items := totalItems, subtotal := round2 subtotalVal
                         total_amount := paymentDue, payment_status := paymentStatus
                         updated_at := createdAt }
              else o) }
        else { dbItems with orders := dbItems.orders ++ [row] }
      { committed := dbFinal, pending := dbFinal
        inserted := st.inserted + 1, skipped := st.skipped
        details := st.details ++ [{ wix_order_id := oid, status := "inserted", reasons := [] }]
        pv := some pv }

/-- The customer-resolution block (lines 509-518): upsert an online
customer; fall back to an offline customer only when the returned id is
falsy. -/
def syncCustomer (db : DB) (name phoneDigits email : String) (now : ℕ) :
    DB × Option ℕ × Option ℕ :=
  let uc := upsert_customer db name phoneDigits email
  if uc.2 ≠ 0 then (uc.1, some uc.2, none)
  else
    let oc := create_or_get_offline_customer uc.1 name phoneDigits email now
    (oc.1, none, some oc.2)

/-- The address block (lines 520-556): reuse a matching address or create
one. -/
def syncAddress (db : DB) (name phoneDigits addrLine pincode city : String)
    (region : Option String) (customerId offlineCustomerId : Option ℕ)
    (createdAt : ℕ) : DB × ℕ :=
  match find_existing_address db addrLine phoneDigits pincode city with
  | some a => (db, a.address_id)
  | none =>
    let rs := find_state_id db region
    create_address db (fun aid =>
      { address_id := aid
        name := if name = "" then "Wix Customer" else name
        mobile := phoneDigits, pincode := pincode, locality := ""
        address_line := addrLine, city := city
        state_id := rs.getD 1, address_type := "shipping"
        customer_id := customerId
        offline_customer_id := if customerId.isSome then none else offlineCustomerId
        created_at := createdAt, updated_at := createdAt, is_available := 1 })

/-- Lines 434-691: contact extraction, customer/address upserts, the
line-item loop and the hand-off to `syncFinish`. -/
def syncBody (force : Bool) (now : ℕ) (st : SyncSt) (inp : SyncInput)
    (oid : String) (existing : Bool) : SyncSt :=
  let w := inp.order
  let createdAt := w.createdDate.getD now
  let contact := extract_address_info w.shippingInfo w.billingInfo w.buyerInfo
  let name := safe_str (sOr contact.fullName (sOr contact.firstName
    (sOr (w.buyerInfo.bind WixBuyer.firstName) (w.buyerInfo.bind WixBuyer.lastName))))
  let phoneDigits0 := digitsOnly (safe_str contact.phone)
  let phoneDigits := if phoneDigits0 ≠ "" ∧ phoneDigits0.length < 7 then "" else phoneDigits0
  let cres := syncCustomer st.pending name phoneDigits (safe_str contact.email) now
  let ares := syncAddress cres.1 name phoneDigits (safe_str contact.addressLine1)
    (safe_str contact.postalCode) (safe_str contact.city) contact.region
    cres.2.1 cres.2.2 createdAt
  let db3 :=
    if existing && force then
      { ares.1 with orderItems := ares.1.orderItems.filter (fun i => i.order_id ≠ oid) }
    else ares.1
  let ls := (lineItemsOf w).foldl (syncLineStep oid w) { db := db3, subtotalSum := 0, pv := st.pv }
  syncFinish now st w oid existing inp.insertFails ls.db ls.subtotalSum ls.pv
    cres.2.1 cres.2.2 ares.2 (lineItemsOf w).length createdAt

/-- One iteration of the per-order loop of `sync_wix_orders`
(wix_sync.py lines 408-772). -/
def syncStep (force : Bool) (now : ℕ) (st : SyncSt) (inp : SyncInput) : SyncSt :=
  if resolveWixOrderId inp = "" then skipDetail st (resolveWixOrderId inp) "missing_order_id"
  else if (st.pending.orders.find? (fun o => o.order_id = resolveWixOrderId inp)).isSome
      && !force then
    skipDetail st (resolveWixOrderId inp) "duplicate_order_id"
  else
    syncBody force now st inp (resolveWixOrderId inp)
      (st.pending.orders.find? (fun o => o.order_id = resolveWixOrderId inp)).isSome

/-- A whole `GET /sync/wix` request over an already-fetched page of orders. -/
def syncRun (force : Bool) (now : ℕ) (db : DB) (inps : List SyncInput) : SyncSt :=
  inps.foldl (syncStep force now)
    { committed := db, pending := db, inserted := 0, skipped := 0, details := [], pv := none }

/-! ## reconcile_wix_orders (wix_sync.py lines 811-1205)

The JSON report assembled by the endpoint is not modelled; only its database
effects are.  Every corrective write is guarded by `fixes && difference`. -/

/-- `UPDATE orders SET … WHERE order_id = :oid`. -/
def updOrderRow (db : DB) (oid : String) (f : OrderRow → OrderRow) : DB :=
  { db with orders := db.orders.map (fun o => if o.order_id = oid then f o else o) }

/-- `create_customer`: plain INSERT returning the new id (modelled as
always succeeding). -/
def create_customer (db : DB) (name mobile email : String) : DB × ℕ :=
  let cid := db.nextCustomerId
  ({ db with customers := db.customers ++ [{ customer_id := cid, name := name, mobile := mobile, email := email }]
             nextCustomerId := cid + 1 }, cid)

/-- Numeric truthiness for optional ids (`x or y` with `0` falsy). -/
def truthyNat : Option ℕ → Option ℕ
  | some 0 => none
  | x => x

/-- `wix_amounts` (lines 850-861): subtotal and payment-due from totals
with fallback to the computed line-item sum. -/
def wix_amounts (w : WixOrder) (subtotalSum : ℚ) : ℚ × ℚ :=
  ( qOr (w.totals.bind WixTotals.subtotal) subtotalSum,
    qOr (w.totals.bind WixTotals.paymentDue) (qOr (w.totals.bind WixTotals.total) subtotalSum) )

/-- The delivery status derived from the Wix order (lines 969-975). -/
def wixDeliveryStatus (w : WixOrder) : String :=
  if ["COMPLETED", "FULFILLED", "SHIPPED"].contains (pyUpper (w.status.getD "")) then "SHIPPED"
  else if ["FULFILLED", "SHIPPED", "COMPLETED"].contains
      (pyUpper ((w.shippingInfo.bind WixShipping.status).getD "")) then "SHIPPED"
  else "NOT_SHIPPED"

/-- The (name, mobile, email) triple the reconcile endpoint extracts
(lines 997-1021): shipping, else billing, else buyer. -/
def reconContact (w : WixOrder) : String × String × String :=
  let sa := shipAddrOf w.shippingInfo
  let sc := shipContactOf w.shippingInfo
  if sa.isSome || sc.isSome then
    ( safe_str (sOr (sc.bind WContact.firstName)
        (sOr ((sa.bind WAddr.fullName).bind NameObj.firstName) (sa.bind WAddr.firstName))) ++ " " ++
      safe_str (sOr (sc.bind WContact.lastName)
        (sOr ((sa.bind WAddr.fullName).bind NameObj.lastName) (sa.bind WAddr.lastName))),
      digitsOnly (safe_str (sOr (sc.bind WContact.phone) (sa.bind WAddr.phone))),
      safe_str (sOr (sa.bind WAddr.email) (sc.bind WContact.email)) )
  else
    let ba := w.billingInfo.bind WixBilling.address
    let bc := w.billingInfo.bind WixBilling.contactDetails
    if ba.isSome || bc.isSome then
      ( safe_str (sOr (bc.bind WContact.firstName)
          (sOr ((ba.bind WAddr.fullName).bind NameObj.firstName) (ba.bind WAddr.firstName))) ++ " " ++
        safe_str (sOr (bc.bind WContact.lastName)
          (sOr ((ba.bind WAddr.fullName).bind NameObj.lastName) (ba.bind WAddr.lastName))),
        digitsOnly (safe_str (sOr (bc.bind WContact.phone) (ba.bind WAddr.phone))),
        safe_str (sOr (ba.bind WAddr.email) (bc.bind WContact.email)) )
    else
      ( safe_str (w.buyerInfo.bind WixBuyer.firstName) ++ " " ++
        safe_str (w.buyerInfo.bind WixBuyer.lastName),
        digitsOnly (safe_str (w.buyerInfo.bind WixBuyer.phone)),
        safe_str (w.buyerInfo.bind WixBuyer.email) )

/-- Reconcile substep 1: payment status (lines 921-937). -/
def reconFixPayment (fixes : Bool) (now : ℕ) (db : DB) (oid : String) (o : OrderRow)
    (wps : String) : DB :=
  if fixes && (pyLower o.payment_status ≠ wps) then
    updOrderRow db oid (fun r => { r with payment_status := wps, updated_at := now })
  else db

/-- Reconcile substep 2: subtotal (lines 939-951). -/
def reconFixSubtotal (fixes : Bool) (now : ℕ) (db : DB) (oid : String) (o : OrderRow)
    (wixSubtotalVal : ℚ) : DB :=
  if fixes && (round2 o.subtotal ≠ round2 wixSubtotalVal) then
    updOrderRow db oid (fun r => { r with subtotal := round2 wixSubtotalVal, updated_at := now })
  else db

/-- Reconcile substep 3: total amount (lines 953-965). -/
def reconFixTotal (fixes : Bool) (now : ℕ) (db : DB) (oid : String) (o : OrderRow)
    (wixPaymentDue : ℚ) : DB :=
  if fixes && (round2 o.total_amount ≠ round2 wixPaymentDue) then
    updOrderRow db oid (fun r => { r with total_amount := wixPaymentDue, updated_at := now })
  else db

/-- Reconcile substep 4: delivery status (lines 967-987). -/
def reconFixDelivery (fixes : Bool) (now : ℕ) (db : DB) (oid : String) (o : OrderRow)
    (wixDel : String) : DB :=
  if fixes && (pyUpper o.delivery_status ≠ wixDel) then
    updOrderRow db oid (fun r => { r with delivery_status := wixDel, updated_at := now })
  else db

/-- Reconcile substep 5: customer fields (lines 989-1066). -/
def reconFixCustomer (fixes : Bool) (now : ℕ) (db : DB) (oid : String) (o : OrderRow)
    (wc : String × String × String) : DB :=
  match truthyNat o.customer_id with
  | some cid =>
    match db.customers.find? (fun c => c.customer_id = cid) with
    | some c =>
      if fixes && (c.name ≠ pyStrip wc.1 || c.mobile ≠ wc.2.1 || c.email ≠ wc.2.2) then
        { db with customers := db.customers.map (fun x =>
            if x.customer_id = cid then { x with name := pyStrip wc.1, mobile := wc.2.1, email := wc.2.2 } else x) }
      else db
    | none => db
  | none =>
    match truthyNat o.offline_customer_id with
    | some ocid =>
      match db.offlineCustomers.find? (fun c => c.customer_id = ocid) with
      | some c =>
        if fixes && (c.name ≠ pyStrip wc.1 || c.mobile ≠ wc.2.1 || c.email ≠ wc.2.2) then
          { db with offlineCustomers := db.offlineCustomers.map (fun x =>
              if x.customer_id = ocid then { x with name := pyStrip wc.1, mobile := wc.2.1, email := wc.2.2 } else x) }
        else db
      | none => db
    | none =>
      if fixes then
        let nc := create_customer db (pyStrip wc.1) wc.2.1 wc.2.2
        updOrderRow nc.1 oid (fun r => { r with customer_id := some nc.2, updated_at := now })
      else db

/-- Reconcile substep 6: address (lines 1068-1141).  A mismatch (or a
missing address row) makes `fix=1` create a fresh address and repoint the
order at it. -/
def reconFixAddress (fixes : Bool) (now : ℕ) (db : DB) (oid : String) (o : OrderRow)
    (wc : String × String × String) (wixAddrLine wixPincode wixCity : String)
    (wixStateId : Option ℕ) : DB :=
  let mkAddr : ℕ → ℕ → AddressRow := fun stateId aid =>
    { address_id := aid
      name := if wc.1 = "" then "Wix Customer" else wc.1
      mobile := wc.2.1, pincode := wixPincode, locality := ""
      address_line := wixAddrLine, city := wixCity
      state_id := stateId, address_type := "shipping"
      customer_id := truthyNat o.customer_id
      offline_customer_id :=
        if (truthyNat o.customer_id).isSome then none else truthyNat o.offline_customer_id
      created_at := now, updated_at := now, is_available := 1 }
  match db.addresses.find? (fun a => a.address_id = o.address_id) with
  | some da =>
    let mism := (da.address_line ≠ wixAddrLine) || (da.pincode ≠ wixPincode) ||
      (da.city ≠ wixCity) ||
      (match truthyNat wixStateId with
       | some s => decide (da.state_id ≠ s)
       | none => false)
    if fixes && mism then
      let na := create_address db
        (mkAddr ((truthyNat wixStateId).getD ((truthyNat (some da.state_id)).getD 1)))
      updOrderRow na.1 oid (fun r => { r with address_id := na.2, updated_at := now })
    else db
  | none =>
    if fixes then
      let na := create_address db (mkAddr ((truthyNat wixStateId).getD 1))
      updOrderRow na.1 oid (fun r => { r with address_id := na.2, updated_at := now })
    else db

/-- A normalized Wix line item for reconciliation (lines 1148-1153). -/
structure WixItemNorm where
  sku : String
  quantity : ℤ
  unit_price : ℚ
  total_price : ℚ
deriving DecidableEq, Repr

/-- Whether index `i` of the normalized Wix items mismatches the stored
items (lines 1160-1172). -/
def reconItemMismatch (db : DB) (dbItems : List ItemRow) (i : ℕ) (wi : WixItemNorm) : Bool :=
  match dbItems.get? i with
  | none => true
  | some di =>
    let dbSku :=
      match truthyNat di.product_id with
      | some pid => (db.products.find? (fun p => p.product_id = pid)).bind ProductRow.sku_id
      | none => none
    let skuOk := safe_str dbSku = wi.sku
    let qtyOk := di.quantity = wi.quantity
    let priceOk := round2 di.unit_price = round2 wi.unit_price
    !(skuOk && qtyOk && priceOk)

/-- Delete-and-recreate of the stored items from the Wix items
(lines 1176-1191). -/
def recreateItems (db : DB) (oid : String) (wixNorm : List WixItemNorm) : DB :=
  let db0 := { db with orderItems := db.orderItems.filter (fun i => i.order_id ≠ oid) }
  wixNorm.foldl (fun d wi =>
    let pr :=
      match (if wi.sku ≠ "" then find_product_by_sku d wi.sku else none) with
      | some p => (d, p)
      | none => ensure_unknown_product d
    let iid := pr.1.nextItemId
    { pr.1 with
      orderItems := pr.1.orderItems ++
        [{ item_id := iid, order_id := oid, product_id := some pr.2.product_id,
           quantity := wi.quantity, unit_price := wi.unit_price, total_price := wi.total_price }]
      nextItemId := iid + 1 }) db0

/-- Reconcile substep 7: line items (lines 1143-1195).  A pure count
difference is only reported; recreation happens on per-index mismatches. -/
def reconFixItems (fixes : Bool) (db : DB) (oid : String) (wixNorm : List WixItemNorm) : DB :=
  let dbItems := db.orderItems.filter (fun i => i.order_id = oid)
  let anyMism := wixNorm.enum.any (fun p => reconItemMismatch db dbItems p.1 p.2)
  if fixes && anyMism then recreateItems db oid wixNorm else db

/-- One iteration of the reconcile loop (lines 885-1203).  A non-dict line
item raises before any write and is reported by the outer handler; an order
missing from the DB is only reported. -/
def reconStep (fixes : Bool) (now : ℕ) (db : DB) (w : WixOrder) : DB :=
  let oid := safe_str (sOr w.number w.id)
  match db.orders.find? (fun o => o.order_id = oid) with
  | none => db
  | some o =>
    if (lineItemsOf w).any (fun it => !it.isObj) then db
    else
      let lis := (lineItemsOf w).filterMap (fun it =>
        match it with
        | .obj li => some li
        | .nonDict => none)
      let wixSubtotalSum := lis.foldl (fun a li => a + round2 (extract_price_value li * liQty li)) 0
      let am := wix_amounts w wixSubtotalSum
      let db1 := reconFixPayment fixes now db oid o (detect_wix_paid_status w)
      let db2 := reconFixSubtotal fixes now db1 oid o am.1
      let db3 := reconFixTotal fixes now db2 oid o am.2
      let db4 := reconFixDelivery fixes now db3 oid o (wixDeliveryStatus w)
      let wc := reconContact w
      let db5 := reconFixCustomer fixes now db4 oid o wc
      let sa := shipAddrOf w.shippingInfo
      let wixAddrLine := safe_str (sOr (sa.bind WAddr.addressLine)
        (sOr (sa.bind WAddr.addressLine1)
          (sOr (sa.bind WAddr.addressLine) (w.shippingInfo.bind WixShipping.address))))
      let wixPincode := safe_str (sOr (sa.bind WAddr.postalCode) (sa.bind WAddr.zipCode))
      let wixCity := safe_str (sa.bind WAddr.city)
      let wixStateId := find_state_id db5
        (some (safe_str (sOr (sa.bind WAddr.subdivision) (sa.bind WAddr.subdivisionFullname))))
      let db6 := reconFixAddress fixes now db5 oid o wc wixAddrLine wixPincode wixCity wixStateId
      let wixNorm := lis.map (fun li =>
        { sku := liSku li, quantity := liQty li, unit_price := extract_price_value li
          total_price := round2 (extract_price_value li * liQty li) })
      reconFixItems fixes db6 oid wixNorm

/-- A whole `GET /sync/wix/reconcile` request over a fetched page. -/
def reconRun (fixes : Bool) (now : ℕ) (db : DB) (ws : List WixOrder) : DB :=
  ws.foldl (reconStep fixes now) db

/-! ## POST /orders/create (orders.py lines 109-221) -/

/-- One submitted line item of an order-creation request. -/
structure OrderItemIn where
  product_id : ℕ
  qty : ℤ
  final_unit_price : ℚ
  line_total : ℚ := 0
  gst_amount : ℚ := 0
deriving DecidableEq, Repr

/-- The `OrderCreate` request body. -/
structure OrderCreate where
  customer_id : Option ℕ := none
  offline_customer_id : Option ℕ := none
  address_id : ℕ := 0
  total_items : ℕ := 0
  subtotal : ℚ := 0
  gst : ℚ := 0
  delivery_charge : ℚ := 0
  total_amount : ℚ := 0
  payment_type : String := ""
  channel : String := "offline"
  items : List OrderItemIn := []
deriving DecidableEq, Repr

/-- `^[0-9]{5}#[0-9]{5}$`. -/
def isStdOrderId (s : String) : Bool :=
  let l := s.toList
  l.length = 11 && (l.take 5).all Char.isDigit && l.get? 5 = some '#' &&
    (l.drop 6).all Char.isDigit

/-- `CAST(SUBSTRING_INDEX(order_id, '#', -1) AS UNSIGNED)` for a matching id. -/
def stdSuffix (s : String) : ℕ :=
  (digitsVal (s.toList.drop 6)).getD 0

/-- The suffix query of `create_order`: the largest suffix of the order ids
matching the pattern, `none` when no order matches. -/
def lastStdSuffix (db : DB) : Option ℕ :=
  let ms := (db.orders.filter (fun o => isStdOrderId o.order_id)).map (fun o => stdSuffix o.order_id)
  match ms with
  | [] => none
  | _ => some (ms.foldl max 0)

/-- `total_qty = sum(item.qty for item in data.items)`. -/
def createTotalQty (items : List OrderItemIn) : ℤ :=
  items.foldl (fun a it => a + it.qty) 0

/-- `delivery_per_unit` of `create_order`: zero unless the delivery charge
is truthy and the total quantity positive. -/
def createDeliveryPerUnit (deliveryCharge : ℚ) (totalQty : ℤ) : ℚ :=
  if deliveryCharge ≠ 0 ∧ 0 < totalQty then round2 (deliveryCharge / totalQty) else 0

/-- The per-item price rule of `create_order`: offline orders keep the
submitted price, other channels absorb the delivery share. -/
def createUnitPrice (chanLower : String) (dpu : ℚ) (it : OrderItemIn) : ℚ :=
  if chanLower = "offline" then it.final_unit_price else it.final_unit_price + dpu

/-- The item-insertion loop of `create_order` (with the `order_details`
companion rows). -/
def insertOrderItems (oid chanLower : String) (dpu : ℚ) : DB → List OrderItemIn → DB
  | d, [] => d
  | d, it :: rest =>
    let newUnit := createUnitPrice chanLower dpu it
    let newTotal := round2 (newUnit * it.qty)
    let iid := d.nextItemId
    let d1 := { d with
      orderItems := d.orderItems ++
        [{ item_id := iid, order_id := oid, product_id := some it.product_id,
           quantity := it.qty, unit_price := newUnit, total_price := newTotal }]
      orderDetails := d.orderDetails ++ [{ item_id := iid, order_id := oid, product_id := it.product_id }]
      nextItemId := iid + 1 }
    insertOrderItems oid chanLower dpu d1 rest

/-- The result of `POST /orders/create`. -/
inductive CreateResult where
  | err (code : ℕ)
  | ok (order_id : String)
deriving DecidableEq, Repr

/-- `create_order` from orders.py. -/
def create_order (data : OrderCreate) (db : DB) (now : ℕ) : CreateResult × DB :=
  if data.address_id = 0 then (.err 400, db)
  else
    match oOr (truthyNat data.offline_customer_id) (truthyNat data.customer_id) with
    | none => (.err 400, db)
    | some cid =>
      let nextSuffix :=
        match lastStdSuffix db with
        | some n => if n = 0 then 1 else n + 1
        | none => 1
      let oid := zfill5 cid ++ "#" ++ zfill5 nextSuffix
      let dpu := createDeliveryPerUnit data.delivery_charge (createTotalQty data.items)
      let row : OrderRow :=
        { order_id := oid, customer_id := data.customer_id
          offline_customer_id := data.offline_customer_id
          address_id := data.address_id, total_items := data.total_items
          subtotal := data.subtotal, gst := data.gst
          delivery_charge := some data.delivery_charge, total_amount := data.total_amount
          channel := pyLower data.channel, payment_status := "pending"
          delivery_status := "NOT_SHIPPED", created_at := now, updated_at := now
          order_index := now, payment_type := data.payment_type }
      let db1 := { db with orders := db.orders ++ [row] }
      (.ok oid, insertOrderItems oid (pyLower data.channel) dpu db1 data.items)

/-! ## Zoho invoice pricing (zoho.py lines 324-379) -/

/-- A line item of the order payload sent to `POST /zoho/invoice`. -/
structure ZLineIn where
  product_id : ℕ := 0
  quantity : ℤ := 1
  unit_price : ℚ := 0
deriving DecidableEq, Repr

/-- `delivery_per_unit` of `create_invoice`. -/
def zohoDeliveryPerUnit (deliveryCharge : ℚ) (totalQty : ℤ) : ℚ :=
  if 0 < totalQty then round2 (deliveryCharge / totalQty) else 0

/-- The GST-exclusive line rates of the Zoho invoice payload:
`round((unit_price + delivery_per_unit) / 1.18, 2)` per item. -/
def zohoLineRates (deliveryCharge : ℚ) (items : List ZLineIn) : List ℚ :=
  let tq := items.foldl (fun a i => a + i.quantity) 0
  let dpu := zohoDeliveryPerUnit deliveryCharge tq
  items.map (fun i => round2 ((i.unit_price + dpu) / (59 / 50)))

/-! ## PUT /orders/(order_id)/delivery-status (orders.py lines 585-600) -/

/-- Replace the first order with the given id. -/
def updateFirstOrder : List OrderRow → String → (OrderRow → OrderRow) → List OrderRow
  | [], _, _ => []
  | o :: rest, oid, f =>
    if o.order_id = oid then f o :: rest else o :: updateFirstOrder rest oid f

/-- The mutation `update_delivery_status` applies to the fetched order. -/
def setDelivery (status : String) (now : ℕ) (o : OrderRow) : OrderRow :=
  { o with delivery_status := status, updated_at := now }

/-- `update_delivery_status`: 400 for a status outside the allowed set
(checked before the query), 404 for an unknown order, otherwise update. -/
def update_delivery_status (oid status : String) (db : DB) (now : ℕ) : Option ℕ × DB :=
  if !(["NOT_SHIPPED", "SHIPPED", "COMPLETED"].contains status) then (some 400, db)
  else
    match db.orders.find? (fun o => o.order_id = oid) with
    | none => (some 404, db)
    | some _ => (none, { db with orders := updateFirstOrder db.orders oid (setDelivery status now) })

/-! # Theorems -/

/-- C5 (counterexample): `extract_price_value` does not return the first
coercible candidate: with `price = "abc"` (stripping to the empty string)
and `unitPrice = 5`, the code returns `0.0` although a later candidate
parses to `5`. -/
theorem claim_C5_counterexample :
    extract_price_value c5Item = 0 ∧ extract_price_claimed c5Item = 5 ∧
    extract_price_value c5Item ≠ extract_price_claimed c5Item := by
  decide

/-- C5 (amended): `extract_price_value` scans the seven candidates in the
fixed source order and returns the value of the first candidate that ends
the scan — a number, a numeric string, or a string that parses after
stripping; a non-numeric string whose stripped form is empty ends the scan
immediately with `0.0`; `0.0` is also returned when no candidate ends the
scan. -/
theorem claim_C5 (li : LineItem) :
    extract_price_value li = extract_price_amended li :=
  priceLoop_eq_findSome (priceCandidates li)

/-- C4: contact fields are resolved with block-level precedence: all fields
come from shipping when shipping provides a non-empty address or
contact-details object, else all from billing when billing provides one,
else all from buyer info. -/
theorem claim_C4 (sh : Option WixShipping) (bi : Option WixBilling) (bu : Option WixBuyer) :
    (((shipAddrOf sh).isSome || (shipContactOf sh).isSome) = true →
      extract_address_info sh bi bu = contactFromShipping (shipAddrOf sh) (shipContactOf sh)) ∧
    (((shipAddrOf sh).isSome || (shipContactOf sh).isSome) = false →
      ((bi.bind WixBilling.address).isSome || (bi.bind WixBilling.contactDetails).isSome) = true →
      extract_address_info sh bi bu =
        contactFromBilling (bi.bind WixBilling.address) (bi.bind WixBilling.contactDetails)) ∧
    (((shipAddrOf sh).isSome || (shipContactOf sh).isSome) = false →
      ((bi.bind WixBilling.address).isSome || (bi.bind WixBilling.contactDetails).isSome) = false →
      extract_address_info sh bi bu = contactFromBuyer bu) := by
  refine ⟨fun h1 => ?_, fun h1 h2 => ?_, fun h1 h2 => ?_⟩
  · simp [extract_address_info, h1]
  · simp [extract_address_info, h1, h2]
  · simp [extract_address_info, h1, h2]

/-- A shipping payload whose destination has a (non-empty) address object. -/
def c4Ship : Option WixShipping :=
  some { shippingDestination := some { address := some { city := some "Pune" } } }

/-- A billing payload with a contact object. -/
def c4Bill : Option WixBilling :=
  some { contactDetails := some { firstName := some "B" } }

theorem claim_C4_witness :
    extract_address_info c4Ship c4Bill none =
      contactFromShipping (shipAddrOf c4Ship) (shipContactOf c4Ship) ∧
    extract_address_info none c4Bill none =
      contactFromBilling ((c4Bill).bind WixBilling.address) ((c4Bill).bind WixBilling.contactDetails) ∧
    extract_address_info none none (some { firstName := some "C" }) =
      contactFromBuyer (some { firstName := some "C" }) :=
  ⟨(claim_C4 c4Ship c4Bill none).1 (by decide),
   (claim_C4 none c4Bill none).2.1 (by decide) (by decide),
   (claim_C4 none none (some { firstName := some "C" })).2.2 (by decide) (by decide)⟩

/-! ## C10: delivery-status endpoint -/

theorem updateFirstOrder_get (oid : String) (f : OrderRow → OrderRow) :
    ∀ (l : List OrderRow) (j : ℕ),
      (updateFirstOrder l oid f).get? j = l.get? j ∨
      (updateFirstOrder l oid f).get? j = (l.get? j).map f := by
  intro l
  induction l with
  | nil => intro j; left; rfl
  | cons o rest ih =>
    intro j
    by_cases ho : o.order_id = oid
    · simp only [updateFirstOrder, if_pos ho]
      cases j with
      | zero => right; rfl
      | succ k => left; rfl
    · simp only [updateFirstOrder, if_neg ho]
      cases j with
      | zero => left; rfl
      | succ k => exact ih k

/-- C10: `PUT /orders/(id)/delivery-status` accepts exactly NOT_SHIPPED,
SHIPPED and COMPLETED; any other value yields 400 even before the order is
looked up, an unknown order yields 404, and both error cases leave the
database unchanged; on success only `delivery_status` and `updated_at` of
the targeted order change. -/
theorem claim_C10 (oid status : String) (db : DB) (now : ℕ) :
    (["NOT_SHIPPED", "SHIPPED", "COMPLETED"].contains status = false →
      update_delivery_status oid status db now = (some 400, db)) ∧
    (["NOT_SHIPPED", "SHIPPED", "COMPLETED"].contains status = true →
      db.orders.find? (fun o => o.order_id = oid) = none →
      update_delivery_status oid status db now = (some 404, db)) ∧
    (["NOT_SHIPPED", "SHIPPED", "COMPLETED"].contains status = true →
      (db.orders.find? (fun o => o.order_id = oid)).isSome = true →
      update_delivery_status oid status db now =
        (none, { db with orders := updateFirstOrder db.orders oid (setDelivery status now) })) ∧
    (∀ j : ℕ,
      (updateFirstOrder db.orders oid (setDelivery status now)).get? j = db.orders.get? j ∨
      (updateFirstOrder db.orders oid (setDelivery status now)).get? j =
        (db.orders.get? j).map (setDelivery status now)) ∧
    (∀ o : OrderRow,
      (setDelivery status now o).order_id = o.order_id ∧
      (setDelivery status now o).customer_id = o.customer_id ∧
      (setDelivery status now o).offline_customer_id = o.offline_customer_id ∧
      (setDelivery status now o).address_id = o.address_id ∧
      (setDelivery status now o).total_items = o.total_items ∧
      (setDelivery status now o).subtotal = o.subtotal ∧
      (setDelivery status now o).total_amount = o.total_amount ∧
      (setDelivery status now o).gst = o.gst ∧
      (setDelivery status now o).delivery_charge = o.delivery_charge ∧
      (setDelivery status now o).channel = o.channel ∧
      (setDelivery status now o).payment_status = o.payment_status ∧
      (setDelivery status now o).payment_type = o.payment_type ∧
      (setDelivery status now o).created_at = o.created_at ∧
      (setDelivery status now o).order_index = o.order_index ∧
      (setDelivery status now o).upload_wbn = o.upload_wbn ∧
      (setDelivery status now o).awb_number = o.awb_number ∧
      (setDelivery status now o).order_status = o.order_status ∧
      (setDelivery status now o).invoice_number = o.invoice_number ∧
      (setDelivery status now o).invoice_id = o.invoice_id ∧
      (setDelivery status now o).remarks = o.remarks ∧
      (setDelivery status now o).delivery_status = status ∧
      (setDelivery status now o).updated_at = now) := by
  refine ⟨fun h => ?_, fun h hn => ?_, fun h hs => ?_, updateFirstOrder_get oid _ db.orders,
    fun o => by simp [setDelivery]⟩
  · unfold update_delivery_status
    rw [h]
    rfl
  · unfold update_delivery_status
    rw [h, hn]
    rfl
  · rcases Option.isSome_iff_exists.mp hs with ⟨o, ho⟩
    unfold update_delivery_status
    rw [h, ho]
    rfl

/-- A small database with one order. -/
def c10Db : DB :=
  { orders := [{ order_id := "00001#00001", channel := "offline", payment_status := "paid" }] }

theorem claim_C10_witness :
    update_delivery_status "00001#00001" "FLYING" c10Db 5 = (some 400, c10Db) ∧
    update_delivery_status "00009#00009" "SHIPPED" c10Db 5 = (some 404, c10Db) ∧
    update_delivery_status "00001#00001" "SHIPPED" c10Db 5 =
      (none, { c10Db with orders := updateFirstOrder c10Db.orders "00001#00001" (setDelivery "SHIPPED" 5) }) :=
  ⟨(claim_C10 "00001#00001" "FLYING" c10Db 5).1 (by decide),
   (claim_C10 "00009#00009" "SHIPPED" c10Db 5).2.1 (by decide) (by decide),
   (claim_C10 "00001#00001" "SHIPPED" c10Db 5).2.2.1 (by decide) (by decide)⟩

/-! ## C8: order-id generation -/

/-- C8: a successful `POST /orders/create` returns
`zfill5(customer) ++ "#" ++ zfill5(maxSuffix + 1)` where the customer id is
the offline id when truthy, else the online id, and `maxSuffix` is the
largest suffix among ids matching `^[0-9]{5}#[0-9]{5}$` (0 when none); with
no customer and no address the request fails with 400. -/
theorem claim_C8 (data : OrderCreate) (db : DB) (now : ℕ) :
    (∀ cid : ℕ, data.address_id ≠ 0 →
      oOr (truthyNat data.offline_customer_id) (truthyNat data.customer_id) = some cid →
      (create_order data db now).1 =
        CreateResult.ok (zfill5 cid ++ "#" ++ zfill5 ((lastStdSuffix db).getD 0 + 1))) ∧
    (truthyNat data.offline_customer_id = none → truthyNat data.customer_id = none →
      data.address_id = 0 →
      (create_order data db now).1 = CreateResult.err 400) := by
  constructor
  · intro cid ha hc
    unfold create_order
    rw [if_neg ha, hc]
    cases h : lastStdSuffix db with
    | none => simp [h]
    | some n =>
      by_cases hn : n = 0
      · subst hn; simp [h]
      · simp [h, hn]
  · intro _ _ h3
    unfold create_order
    rw [if_pos h3]

def c8Db : DB :=
  { orders := [{ order_id := "00002#00007", channel := "wix" }, { order_id := "ABC" }] }

def c8Data : OrderCreate := { customer_id := some 3, address_id := 5 }

theorem claim_C8_witness :
    (create_order c8Data c8Db 9).1 =
      CreateResult.ok (zfill5 3 ++ "#" ++ zfill5 ((lastStdSuffix c8Db).getD 0 + 1)) ∧
    zfill5 3 ++ "#" ++ zfill5 ((lastStdSuffix c8Db).getD 0 + 1) = "00003#00008" ∧
    (create_order { address_id := 0 } c8Db 9).1 = CreateResult.err 400 :=
  ⟨(claim_C8 c8Data c8Db 9).1 3 (by decide) (by decide), by decide,
   (claim_C8 { address_id := 0 } c8Db 9).2 (by decide) (by decide) (by decide)⟩

/-! ## C6: delivery-charge distribution -/

theorem round2_zero : round2 0 = 0 := by
  unfold round2 pyRoundInt
  norm_num

theorem createDpu_round (d : ℚ) (q : ℤ) (hq : 0 < q) :
    createDeliveryPerUnit d q = round2 (d / q) := by
  unfold createDeliveryPerUnit
  by_cases hd : d = 0
  · subst hd
    simp [round2_zero]
  · rw [if_pos ⟨hd, hq⟩]

theorem insertOrderItems_unit_map (oid ch : String) (dpu : ℚ) :
    ∀ (its : List OrderItemIn) (d : DB),
      (insertOrderItems oid ch dpu d its).orderItems.map ItemRow.unit_price =
        d.orderItems.map ItemRow.unit_price ++ its.map (createUnitPrice ch dpu) := by
  intro its
  induction its with
  | nil => intro d; simp [insertOrderItems]
  | cons it rest ih =>
    intro d
    show (insertOrderItems oid ch dpu _ rest).orderItems.map ItemRow.unit_price = _
    rw [ih]
    simp

theorem insertOrderItems_total_map (oid ch : String) (dpu : ℚ) :
    ∀ (its : List OrderItemIn) (d : DB),
      (insertOrderItems oid ch dpu d its).orderItems.map ItemRow.total_price =
        d.orderItems.map ItemRow.total_price ++
          its.map (fun it => round2 (createUnitPrice ch dpu it * it.qty)) := by
  intro its
  induction its with
  | nil => intro d; simp [insertOrderItems]
  | cons it rest ih =>
    intro d
    show (insertOrderItems oid ch dpu _ rest).orderItems.map ItemRow.total_price = _
    rw [ih]
    simp

/-- C6: for non-"offline" channels each stored unit price is the submitted
final unit price plus `round(delivery_charge / total_qty, 2)` and each
total price is `round(unit_price * qty, 2)`; offline orders store the
submitted price unchanged; the Zoho invoice builder divides the delivery
charge per unit by exactly the same rule. -/
theorem claim_C6 (data : OrderCreate) (db : DB) (now : ℕ) :
    (∀ cid : ℕ, pyLower data.channel ≠ "offline" → 0 < createTotalQty data.items →
      data.address_id ≠ 0 →
      oOr (truthyNat data.offline_customer_id) (truthyNat data.customer_id) = some cid →
      (create_order data db now).2.orderItems.map ItemRow.unit_price =
        db.orderItems.map ItemRow.unit_price ++
          data.items.map (fun it => it.final_unit_price +
            round2 (data.delivery_charge / (createTotalQty data.items : ℚ))) ∧
      (create_order data db now).2.orderItems.map ItemRow.total_price =
        db.orderItems.map ItemRow.total_price ++
          data.items.map (fun it => round2 ((it.final_unit_price +
            round2 (data.delivery_charge / (createTotalQty data.items : ℚ))) * it.qty))) ∧
    (∀ cid : ℕ, pyLower data.channel = "offline" → data.address_id ≠ 0 →
      oOr (truthyNat data.offline_customer_id) (truthyNat data.customer_id) = some cid →
      (create_order data db now).2.orderItems.map ItemRow.unit_price =
        db.orderItems.map ItemRow.unit_price ++
          data.items.map OrderItemIn.final_unit_price ∧
      (create_order data db now).2.orderItems.map ItemRow.total_price =
        db.orderItems.map ItemRow.total_price ++
          data.items.map (fun it => round2 (it.final_unit_price * it.qty))) ∧
    (∀ (d : ℚ) (tq : ℤ), createDeliveryPerUnit d tq = zohoDeliveryPerUnit d tq) ∧
    (∀ (d : ℚ) (items : List ZLineIn),
      zohoLineRates d items = items.map (fun i =>
        round2 ((i.unit_price +
          zohoDeliveryPerUnit d (items.foldl (fun a i => a + i.quantity) 0)) / (59 / 50)))) := by
  refine ⟨fun cid h1 h2 ha hc => ?_, fun cid h1 ha hc => ?_, fun d tq => ?_, fun d items => rfl⟩
  · have hmap : ∀ it ∈ data.items,
        createUnitPrice (pyLower data.channel)
          (createDeliveryPerUnit data.delivery_charge (createTotalQty data.items)) it =
          it.final_unit_price + round2 (data.delivery_charge / (createTotalQty data.items : ℚ)) := by
      intro it _
      unfold createUnitPrice
      rw [if_neg h1, createDpu_round _ _ h2]
    have hmap2 : ∀ it ∈ data.items,
        round2 (createUnitPrice (pyLower data.channel)
          (createDeliveryPerUnit data.delivery_charge (createTotalQty data.items)) it * it.qty) =
          round2 ((it.final_unit_price +
            round2 (data.delivery_charge / (createTotalQty data.items : ℚ))) * it.qty) :=
      fun it hit => by rw [hmap it hit]
    constructor
    · unfold create_order
      rw [if_neg ha, hc]
      rw [insertOrderItems_unit_map, List.map_congr_left hmap]
    · unfold create_order
      rw [if_neg ha, hc]
      rw [insertOrderItems_total_map, List.map_congr_left hmap2]
  · have hmap : ∀ it ∈ data.items,
        createUnitPrice (pyLower data.channel)
          (createDeliveryPerUnit data.delivery_charge (createTotalQty data.items)) it =
          it.final_unit_price := by
      intro it _
      unfold createUnitPrice
      rw [if_pos h1]
    have hmap2 : ∀ it ∈ data.items,
        round2 (createUnitPrice (pyLower data.channel)
          (createDeliveryPerUnit data.delivery_charge (createTotalQty data.items)) it * it.qty) =
          round2 (it.final_unit_price * it.qty) :=
      fun it hit => by rw [hmap it hit]
    constructor
    · unfold create_order
      rw [if_neg ha, hc]
      rw [insertOrderItems_unit_map, List.map_congr_left hmap]
    · unfold create_order
      rw [if_neg ha, hc]
      rw [insertOrderItems_total_map, List.map_congr_left hmap2]
  · unfold createDeliveryPerUnit zohoDeliveryPerUnit
    by_cases hq : (0 : ℤ) < tq
    · by_cases hd : d = 0
      · subst hd
        simp [hq, round2_zero]
      · rw [if_pos ⟨hd, hq⟩, if_pos hq]
    · simp [hq]

def c6Data : OrderCreate :=
  { customer_id := some 1, address_id := 2, delivery_charge := 30, channel := "wix"
    items := [{ product_id := 1, qty := 2, final_unit_price := 100 },
              { product_id := 2, qty := 1, final_unit_price := 50 }] }

theorem claim_C6_witness :
    (create_order c6Data {} 7).2.orderItems.map ItemRow.unit_price =
      ({} : DB).orderItems.map ItemRow.unit_price ++
        c6Data.items.map (fun it => it.final_unit_price +
          round2 (c6Data.delivery_charge / (createTotalQty c6Data.items : ℚ))) ∧
    (create_order c6Data {} 7).1 = CreateResult.ok "00001#00001" :=
  ⟨((claim_C6 c6Data {} 7).1 1 (by decide) (by decide) (by decide) (by decide)).1,
   by decide⟩

/-! ## C2: identity rule and duplicate skipping -/

theorem sOr_not_truthy {a : Option String} (b : Option String) (h : sTruthy a = false) :
    sOr a b = b := by
  cases a with
  | none => rfl
  | some s =>
    have hs : s = "" := by simpa [sTruthy] using h
    subst hs
    simp [sOr]

/-- C2: the remote `number` becomes the local order id whenever it is
present (non-empty); the UUID is used only when both the number and the
re-fetched number are missing; an existing order id without `force=1` is
skipped with reason `duplicate_order_id` and leaves both the session and
the committed database untouched. -/
theorem claim_C2 :
    (∀ (inp : SyncInput) (s : String), inp.order.number = some s → s ≠ "" →
      resolveWixOrderId inp = s) ∧
    (∀ inp : SyncInput, sTruthy inp.order.number = false → sTruthy inp.refetchNumber = false →
      resolveWixOrderId inp = safe_str inp.order.id) ∧
    (∀ (now : ℕ) (st : SyncSt) (inp : SyncInput),
      resolveWixOrderId inp ≠ "" →
      (st.pending.orders.find? (fun o => o.order_id = resolveWixOrderId inp)).isSome = true →
      syncStep false now st inp = skipDetail st (resolveWixOrderId inp) "duplicate_order_id") ∧
    (∀ (st : SyncSt) (oid r : String),
      (skipDetail st oid r).committed = st.committed ∧
      (skipDetail st oid r).pending = st.pending ∧
      (skipDetail st oid r).inserted = st.inserted ∧
      (skipDetail st oid r).skipped = st.skipped + 1 ∧
      (skipDetail st oid r).details =
        st.details ++ [{ wix_order_id := oid, status := "skipped", reasons := [r] }]) := by
  refine ⟨?_, ?_, ?_, fun st oid r => ⟨rfl, rfl, rfl, rfl, rfl⟩⟩
  · intro inp s h hs
    unfold resolveWixOrderId
    rw [h]
    simp [sOr, hs, safe_str]
  · intro inp h1 h2
    unfold resolveWixOrderId
    rw [sOr_not_truthy _ h1, sOr_not_truthy _ h2]
  · intro now st inp hne hex
    unfold syncStep
    rw [if_neg hne]
    simp only [Bool.not_false, Bool.and_true, hex, if_true]

def c2Db : DB := { orders := [{ order_id := "77", channel := "wix" }] }

def c2St : SyncSt :=
  { committed := c2Db, pending := c2Db, inserted := 0, skipped := 0, details := [], pv := none }

def c2Inp : SyncInput := { order := { number := some "77", id := some "uuid-1" } }

theorem claim_C2_witness :
    resolveWixOrderId c2Inp = "77" ∧
    resolveWixOrderId { order := { id := some "uuid-2" } } = "uuid-2" ∧
    syncStep false 3 c2St c2Inp = skipDetail c2St (resolveWixOrderId c2Inp) "duplicate_order_id" :=
  ⟨claim_C2.1 c2Inp "77" rfl (by decide),
   claim_C2.2.1 { order := { id := some "uuid-2" } } (by decide) (by decide),
   claim_C2.2.2.1 3 c2St c2Inp (by decide) (by decide)⟩

/-! ## C7: per-order accounting and failure handling -/

theorem syncFinish_counts (now : ℕ) (st : SyncSt) (w : WixOrder) (oid : String)
    (existing insertFails : Bool) (dbItems : DB) (ssum : ℚ) (pv? : Option PayVars)
    (c oc : Option ℕ) (a t ca : ℕ) :
    (syncFinish now st w oid existing insertFails dbItems ssum pv? c oc a t ca).inserted +
      (syncFinish now st w oid existing insertFails dbItems ssum pv? c oc a t ca).skipped =
      st.inserted + st.skipped + 1 ∧
    (syncFinish now st w oid existing insertFails dbItems ssum pv? c oc a t ca).details.length =
      st.details.length + 1 := by
  cases pv? with
  | none => constructor <;> simp [syncFinish] <;> omega
  | some pv =>
    by_cases hf : insertFails <;>
      constructor <;> simp [syncFinish, hf] <;> omega

theorem syncStep_counts (force : Bool) (now : ℕ) (st : SyncSt) (inp : SyncInput) :
    (syncStep force now st inp).inserted + (syncStep force now st inp).skipped =
      st.inserted + st.skipped + 1 ∧
    (syncStep force now st inp).details.length = st.details.length + 1 := by
  unfold syncStep
  split
  · constructor <;> simp [skipDetail] <;> omega
  · split
    · constructor <;> simp [skipDetail] <;> omega
    · exact syncFinish_counts now st inp.order _ _ _ _ _ _ _ _ _ _ _

theorem syncRun_counts_aux (force : Bool) (now : ℕ) :
    ∀ (inps : List SyncInput) (st : SyncSt),
      ((inps.foldl (syncStep force now) st).inserted +
        (inps.foldl (syncStep force now) st).skipped =
        st.inserted + st.skipped + inps.length) ∧
      ((inps.foldl (syncStep force now) st).details.length =
        st.details.length + inps.length) := by
  intro inps
  induction inps with
  | nil => intro st; simp
  | cons i rest ih =>
    intro st
    have hstep := syncStep_counts force now st i
    have hrest := ih (syncStep force now st i)
    refine ⟨?_, ?_⟩
    · rw [List.foldl_cons, hrest.1, hstep.1]
      simp; omega
    · rw [List.foldl_cons, hrest.2, hstep.2]
      simp; omega

/-- C7: every fetched order is accounted for exactly once
(`inserted + skipped` equals the number of fetched orders and exactly one
detail entry is appended per order); a failing order INSERT/UPDATE rolls
the session back to the last commit, counts the order as skipped with
reason `order_insert_failed`, and the loop then continues with the
remaining orders. -/
theorem claim_C7 (force : Bool) (now : ℕ) (db : DB) (inps : List SyncInput) :
    ((syncRun force now db inps).inserted + (syncRun force now db inps).skipped = inps.length) ∧
    ((syncRun force now db inps).details.length = inps.length) ∧
    (∀ (st : SyncSt) (w : WixOrder) (oid : String) (existing : Bool) (dbItems : DB)
       (ssum : ℚ) (pv : PayVars) (c oc : Option ℕ) (a t ca : ℕ),
      (syncFinish now st w oid existing true dbItems ssum (some pv) c oc a t ca).pending =
        st.committed ∧
      (syncFinish now st w oid existing true dbItems ssum (some pv) c oc a t ca).committed =
        st.committed ∧
      (syncFinish now st w oid existing true dbItems ssum (some pv) c oc a t ca).inserted =
        st.inserted ∧
      (syncFinish now st w oid existing true dbItems ssum (some pv) c oc a t ca).skipped =
        st.skipped + 1 ∧
      (syncFinish now st w oid existing true dbItems ssum (some pv) c oc a t ca).details =
        st.details ++
          [{ wix_order_id := oid, status := "skipped", reasons := ["order_insert_failed"] }]) ∧
    (∀ (st : SyncSt) (i : SyncInput) (rest : List SyncInput),
      (i :: rest).foldl (syncStep force now) st =
        rest.foldl (syncStep force now) (syncStep force now st i)) := by
  refine ⟨?_, ?_, fun st w oid existing dbItems ssum pv c oc a t ca => ?_,
    fun st i rest => rfl⟩
  · have := syncRun_counts_aux force now inps
      { committed := db, pending := db, inserted := 0, skipped := 0, details := [], pv := none }
    simpa [syncRun] using this.1
  · have := syncRun_counts_aux force now inps
      { committed := db, pending := db, inserted := 0, skipped := 0, details := [], pv := none }
    simpa [syncRun] using this.2
  · exact ⟨rfl, rfl, rfl, rfl, rfl⟩

/-! ## C9: orders with no line items -/

theorem upsert_customer_orders (db : DB) (n m e : String) :
    (upsert_customer db n m e).1.orders = db.orders := by
  unfold upsert_customer
  cases hf : find_customer db m e <;> simp [hf]

theorem offline_customer_orders (db : DB) (n m e : String) (now : ℕ) :
    (create_or_get_offline_customer db n m e now).1.orders = db.orders := by
  unfold create_or_get_offline_customer
  cases hf : offlineLookup db (if m ≠ "" ∧ (pyStrip m).length < 7 then "" else m) <;> simp [hf]

theorem create_address_orders2 (db : DB) (row : ℕ → AddressRow) :
    (create_address db row).1.orders = db.orders := rfl

theorem syncCustomer_orders (db : DB) (n p e : String) (now : ℕ) :
    (syncCustomer db n p e now).1.orders = db.orders := by
  simp only [syncCustomer]
  split <;> simp [upsert_customer_orders, offline_customer_orders]

theorem syncAddress_orders (db : DB) (n p al pc cty : String) (r : Option String)
    (c oc : Option ℕ) (ca : ℕ) :
    (syncAddress db n p al pc cty r c oc ca).1.orders = db.orders := by
  unfold syncAddress
  cases hf : find_existing_address db al p pc cty <;> simp [hf, create_address_orders2]

/-- An order with no line items leaves the payment variables untouched: when
they have never been assigned (`st.pv = none`), evaluating `is_paid` raises
`NameError`, the outer handler counts the order as skipped, and the orders
table is not written. -/
theorem syncBody_empty_noPv (force : Bool) (now : ℕ) (st : SyncSt) (inp : SyncInput)
    (oid : String) (existing : Bool) (hpv : st.pv = none)
    (hli : lineItemsOf inp.order = []) :
    (syncBody force now st inp oid existing).committed = st.committed ∧
    (syncBody force now st inp oid existing).pending.orders = st.pending.orders ∧
    (syncBody force now st inp oid existing).inserted = st.inserted ∧
    (syncBody force now st inp oid existing).skipped = st.skipped + 1 := by
  refine ⟨?_, ?_, ?_, ?_⟩ <;>
    simp only [syncBody, hli, List.foldl_nil, hpv, syncFinish]
  split <;> simp [syncAddress_orders, syncCustomer_orders]

/-- C9 (amended): an order whose line-item list is empty is skipped with no
orders-table write only while the loop-local payment variables are still
unassigned (`pv = none`, e.g. for the first fetched order); a later
empty order instead reuses the variables of the previously processed line
item (see the counterexample). -/
theorem claim_C9 (force : Bool) (now : ℕ) (st : SyncSt) (inp : SyncInput)
    (hpv : st.pv = none) (hli : lineItemsOf inp.order = []) :
    (syncStep force now st inp).committed = st.committed ∧
    (syncStep force now st inp).pending.orders = st.pending.orders ∧
    (syncStep force now st inp).inserted = st.inserted ∧
    (syncStep force now st inp).skipped = st.skipped + 1 := by
  unfold syncStep
  split
  · exact ⟨rfl, rfl, rfl, rfl⟩
  · split
    · exact ⟨rfl, rfl, rfl, rfl⟩
    · exact syncBody_empty_noPv force now st inp _ _ hpv hli

def c9St : SyncSt :=
  { committed := {}, pending := {}, inserted := 0, skipped := 0, details := [], pv := none }

def c9Inp : SyncInput := { order := { number := some "E9" } }

theorem claim_C9_witness :
    (syncStep false 4 c9St c9Inp).committed = c9St.committed ∧
    (syncStep false 4 c9St c9Inp).pending.orders = c9St.pending.orders ∧
    (syncStep false 4 c9St c9Inp).inserted = c9St.inserted ∧
    (syncStep false 4 c9St c9Inp).skipped = c9St.skipped + 1 :=
  claim_C9 false 4 c9St c9Inp rfl rfl

def c9A : SyncInput :=
  { order := { number := some "A9"
               lineItems := some [.obj { price := some (.sc (.num 7)), quantity := some 2 }]
               totals := some { total := some 14 } } }

def c9B : SyncInput := { order := { number := some "B9" } }

/-- C9 (counterexample): after an order with a line item has been processed
in the same request, an order with no line items is not skipped — it is
inserted into the orders table using the stale payment variables. -/
theorem claim_C9_counterexample :
    (syncRun false 2000 {} [c9A, c9B]).inserted = 2 ∧
    (syncRun false 2000 {} [c9A, c9B]).skipped = 0 ∧
    ((syncRun false 2000 {} [c9A, c9B]).committed.orders.map OrderRow.order_id) = ["A9", "B9"] ∧
    lineItemsOf c9B.order = [] := by
  decide

/-! ## C1: payment-status detection -/

theorem detect_paid_iff (w : WixOrder) :
    detect_wix_paid_status w = "paid" ↔
      (0 < wixPaidAmount w ∨ wixPaymentStatusRaw w ∈ ["PAID", "ACCEPTED", "SUCCESS"] ∨
        wixGatewayStatusRaw w ∈ ["SUCCESS", "PAID", "CAPTURED"]) := by
  unfold detect_wix_paid_status
  split_ifs with h1 h2 h3
  · simp [h1]
  · simp [List.elem_iff.mp h2]
  · simp [List.elem_iff.mp h3]
  · constructor
    · intro h; exact absurd h (by decide)
    · rintro (h | h | h)
      · exact absurd h h1
      · exact absurd (List.elem_iff.mpr h) (by simpa using h2)
      · exact absurd (List.elem_iff.mpr h) (by simpa using h3)

theorem syncPaymentStatus_fresh (w : WixOrder) :
    syncPaymentStatus (payVarsOf w) = detect_wix_paid_status w := by
  simp only [syncPaymentStatus, syncIsPaid, payVarsOf, detect_wix_paid_status]
  split_ifs <;> simp_all

theorem syncLineLoop_pv_keep (oid : String) (w : WixOrder) :
    ∀ (l : List LItem) (st0 : LoopSt), st0.pv = some (payVarsOf w) →
      (l.foldl (syncLineStep oid w) st0).pv = some (payVarsOf w) := by
  intro l
  induction l with
  | nil => intro st0 h; simpa using h
  | cons hd tl ih =>
    intro st0 h
    rw [List.foldl_cons]
    cases hd with
    | nonDict => exact ih _ h
    | obj li => exact ih _ rfl

theorem syncLineLoop_pv (oid : String) (w : WixOrder) :
    ∀ (l : List LItem) (st0 : LoopSt), l.any LItem.isObj = true →
      (l.foldl (syncLineStep oid w) st0).pv = some (payVarsOf w) := by
  intro l
  induction l with
  | nil => intro st0 h; simp at h
  | cons hd tl ih =>
    intro st0 h
    rw [List.foldl_cons]
    cases hd with
    | nonDict =>
      have hh : tl.any LItem.isObj = true := by simpa [LItem.isObj] using h
      exact ih _ hh
    | obj li => exact syncLineLoop_pv_keep oid w tl _ rfl

theorem syncFinish_insert_payment (now : ℕ) (st : SyncSt) (w : WixOrder) (oid : String)
    (dbItems : DB) (ssum : ℚ) (pv : PayVars) (c oc : Option ℕ) (a t ca : ℕ) :
    (syncFinish now st w oid false false dbItems ssum (some pv) c oc a t ca).committed.orders.map
      (fun o => (o.order_id, o.payment_status)) =
    dbItems.orders.map (fun o => (o.order_id, o.payment_status)) ++
      [(oid, syncPaymentStatus pv)] := by
  simp [syncFinish]

/-- C1 (amended): `detect_wix_paid_status` returns "paid" exactly when the
paid amount is positive, the explicit status upper-cases to
PAID/ACCEPTED/SUCCESS, or the gateway status upper-cases to
SUCCESS/PAID/CAPTURED, and "pending" otherwise; the sync endpoint stores
that same status for every order with at least one dict line item (whose
loop leaves `pv = payVarsOf w`), but an order with no processed line items
reuses the payment variables of the previously processed line item. -/
theorem claim_C1 :
    (∀ w : WixOrder, detect_wix_paid_status w = "paid" ↔
      (0 < wixPaidAmount w ∨ wixPaymentStatusRaw w ∈ ["PAID", "ACCEPTED", "SUCCESS"] ∨
        wixGatewayStatusRaw w ∈ ["SUCCESS", "PAID", "CAPTURED"])) ∧
    (∀ w : WixOrder, detect_wix_paid_status w = "pending" ↔
      ¬(0 < wixPaidAmount w ∨ wixPaymentStatusRaw w ∈ ["PAID", "ACCEPTED", "SUCCESS"] ∨
        wixGatewayStatusRaw w ∈ ["SUCCESS", "PAID", "CAPTURED"])) ∧
    (∀ w : WixOrder, syncPaymentStatus (payVarsOf w) = detect_wix_paid_status w) ∧
    (∀ (oid : String) (w : WixOrder) (l : List LItem) (st0 : LoopSt),
      l.any LItem.isObj = true →
      (l.foldl (syncLineStep oid w) st0).pv = some (payVarsOf w)) ∧
    (∀ (now : ℕ) (st : SyncSt) (w : WixOrder) (oid : String) (dbItems : DB) (ssum : ℚ)
       (pv : PayVars) (c oc : Option ℕ) (a t ca : ℕ),
      (syncFinish now st w oid false false dbItems ssum (some pv) c oc a t
          ca).committed.orders.map (fun o => (o.order_id, o.payment_status)) =
        dbItems.orders.map (fun o => (o.order_id, o.payment_status)) ++
          [(oid, syncPaymentStatus pv)]) := by
  refine ⟨detect_paid_iff, fun w => ?_, syncPaymentStatus_fresh,
    fun oid w l st0 h => syncLineLoop_pv oid w l st0 h,
    fun now st w oid dbItems ssum pv c oc a t ca =>
      syncFinish_insert_payment now st w oid dbItems ssum pv c oc a t ca⟩
  · rw [← not_iff_not, not_not, ← detect_paid_iff]
    unfold detect_wix_paid_status
    split_ifs <;> simp

def c1WOrder : WixOrder := { totals := some { paid := some 100 } }

theorem claim_C1_witness :
    detect_wix_paid_status c1WOrder = "paid" ∧
    ([LItem.obj {}].foldl (syncLineStep "X" c1WOrder)
      { db := {}, subtotalSum := 0, pv := none }).pv = some (payVarsOf c1WOrder) :=
  ⟨(claim_C1.1 c1WOrder).mpr (Or.inl (by decide)),
   claim_C1.2.2.2.1 "X" c1WOrder [LItem.obj {}] _ (by decide)⟩

def c1A : SyncInput :=
  { order := { number := some "A1", totals := some { paid := some 100 }
               lineItems := some [.obj { price := some (.sc (.num 10)), quantity := some 1 }] } }

def c1B : SyncInput := { order := { number := some "B1" } }

/-- C1 (counterexample): the claim is false for `sync_wix_orders` as stated:
order B1 carries no payment signal at all (its own conditions are all
false), yet because it has no line items the stored status is computed from
the stale variables of order A1 and B1 is stored as "paid". -/
theorem claim_C1_counterexample :
    ((syncRun false 1000 {} [c1A, c1B]).committed.orders.find?
        (fun o => o.order_id = "B1")).map OrderRow.payment_status = some "paid" ∧
    detect_wix_paid_status c1B.order = "pending" ∧
    ¬(0 < wixPaidAmount c1B.order ∨
      wixPaymentStatusRaw c1B.order ∈ ["PAID", "ACCEPTED", "SUCCESS"] ∨
      wixGatewayStatusRaw c1B.order ∈ ["SUCCESS", "PAID", "CAPTURED"]) := by
  refine ⟨by decide, by decide, ?_⟩
  rintro (h | h | h)
  · exact absurd h (by decide)
  · exact absurd h (by decide)
  · exact absurd h (by decide)

/-! ## C3: reconcile is read-only without fix=1 -/

theorem reconFixPayment_false (now : ℕ) (db : DB) (oid : String) (o : OrderRow) (wps : String) :
    reconFixPayment false now db oid o wps = db := by
  simp [reconFixPayment]

theorem reconFixSubtotal_false (now : ℕ) (db : DB) (oid : String) (o : OrderRow) (v : ℚ) :
    reconFixSubtotal false now db oid o v = db := by
  simp [reconFixSubtotal]

theorem reconFixTotal_false (now : ℕ) (db : DB) (oid : String) (o : OrderRow) (v : ℚ) :
    reconFixTotal false now db oid o v = db := by
  simp [reconFixTotal]

theorem reconFixDelivery_false (now : ℕ) (db : DB) (oid : String) (o : OrderRow) (d : String) :
    reconFixDelivery false now db oid o d = db := by
  simp [reconFixDelivery]

theorem reconFixCustomer_false (now : ℕ) (db : DB) (oid : String) (o : OrderRow)
    (wc : String × String × String) :
    reconFixCustomer false now db oid o wc = db := by
  unfold reconFixCustomer
  repeat' split
  all_goals simp_all

theorem reconFixAddress_false (now : ℕ) (db : DB) (oid : String) (o : OrderRow)
    (wc : String × String × String) (al pc cty : String) (sid : Option ℕ) :
    reconFixAddress false now db oid o wc al pc cty sid = db := by
  unfold reconFixAddress
  repeat' split
  all_goals simp_all

theorem reconFixItems_false (db : DB) (oid : String) (wn : List WixItemNorm) :
    reconFixItems false db oid wn = db := by
  simp [reconFixItems]

theorem reconStep_false (now : ℕ) (db : DB) (w : WixOrder) :
    reconStep false now db w = db := by
  unfold reconStep
  cases hf : List.find? (fun o => o.order_id = safe_str (sOr w.number w.id)) db.orders with
  | none => simp [hf]
  | some o =>
    simp only [hf]
    split
    · rfl
    · simp only [reconFixPayment_false, reconFixSubtotal_false, reconFixTotal_false,
        reconFixDelivery_false, reconFixCustomer_false, reconFixAddress_false,
        reconFixItems_false]

theorem reconRun_false (now : ℕ) :
    ∀ (ws : List WixOrder) (db : DB), reconRun false now db ws = db := by
  intro ws
  induction ws with
  | nil => intro db; rfl
  | cons w rest ih =>
    intro db
    show reconRun false now (reconStep false now db w) rest = db
    rw [reconStep_false, ih]

/-- C3: with `fix=0` the reconcile endpoint performs no write at all — the
database after the run equals the database before it — and each corrective
write (payment status, subtotal, total amount, delivery status, customer
fields, address replacement, line-item recreation) leaves the database
unchanged whenever its difference was not detected, whatever the fix flag. -/
theorem claim_C3 :
    (∀ (now : ℕ) (db : DB) (ws : List WixOrder), reconRun false now db ws = db) ∧
    (∀ (f : Bool) (now : ℕ) (db : DB) (oid : String) (o : OrderRow) (wps : String),
      pyLower o.payment_status = wps → reconFixPayment f now db oid o wps = db) ∧
    (∀ (f : Bool) (now : ℕ) (db : DB) (oid : String) (o : OrderRow) (v : ℚ),
      round2 o.subtotal = round2 v → reconFixSubtotal f now db oid o v = db) ∧
    (∀ (f : Bool) (now : ℕ) (db : DB) (oid : String) (o : OrderRow) (v : ℚ),
      round2 o.total_amount = round2 v → reconFixTotal f now db oid o v = db) ∧
    (∀ (f : Bool) (now : ℕ) (db : DB) (oid : String) (o : OrderRow) (d : String),
      pyUpper o.delivery_status = d → reconFixDelivery f now db oid o d = db) ∧
    (∀ (f : Bool) (now : ℕ) (db : DB) (oid : String) (o : OrderRow)
       (wc : String × String × String) (cid : ℕ) (c : CustomerRow),
      truthyNat o.customer_id = some cid →
      db.customers.find? (fun x => x.customer_id = cid) = some c →
      c.name = pyStrip wc.1 → c.mobile = wc.2.1 → c.email = wc.2.2 →
      reconFixCustomer f now db oid o wc = db) ∧
    (∀ (f : Bool) (now : ℕ) (db : DB) (oid : String) (o : OrderRow)
       (wc : String × String × String) (ocid : ℕ) (c : CustomerRow),
      truthyNat o.customer_id = none → truthyNat o.offline_customer_id = some ocid →
      db.offlineCustomers.find? (fun x => x.customer_id = ocid) = some c →
      c.name = pyStrip wc.1 → c.mobile = wc.2.1 → c.email = wc.2.2 →
      reconFixCustomer f now db oid o wc = db) ∧
    (∀ (f : Bool) (now : ℕ) (db : DB) (oid : String) (o : OrderRow)
       (wc : String × String × String) (al pc cty : String) (sid : Option ℕ) (da : AddressRow),
      db.addresses.find? (fun a => a.address_id = o.address_id) = some da →
      da.address_line = al → da.pincode = pc → da.city = cty →
      (∀ s, truthyNat sid = some s → da.state_id = s) →
      reconFixAddress f now db oid o wc al pc cty sid = db) ∧
    (∀ (f : Bool) (db : DB) (oid : String) (wn : List WixItemNorm),
      (wn.enum.any (fun p =>
        reconItemMismatch db (db.orderItems.filter (fun i => i.order_id = oid)) p.1 p.2)) = false →
      reconFixItems f db oid wn = db) := by
  refine ⟨fun now db ws => reconRun_false now ws db, ?_, ?_, ?_, ?_, ?_, ?_, ?_, ?_⟩
  · intro f now db oid o wps h
    simp [reconFixPayment, h]
  · intro f now db oid o v h
    simp [reconFixSubtotal, h]
  · intro f now db oid o v h
    simp [reconFixTotal, h]
  · intro f now db oid o d h
    simp [reconFixDelivery, h]
  · intro f now db oid o wc cid c hcid hfind hn hm he
    unfold reconFixCustomer
    simp [hcid, hfind, hn, hm, he]
  · intro f now db oid o wc ocid c hcid hocid hfind hn hm he
    unfold reconFixCustomer
    simp [hcid, hocid, hfind, hn, hm, he]
  · intro f now db oid o wc al pc cty sid da hfind hal hpc hcty hst
    unfold reconFixAddress
    cases htn : truthyNat sid with
    | none => simp [hfind, hal, hpc, hcty, htn]
    | some sN =>
      have hsEq : da.state_id = sN := hst sN htn
      simp [hfind, hal, hpc, hcty, htn, hsEq]
  · intro f db oid wn h
    unfold reconFixItems
    simp [h]

def c3Order : OrderRow :=
  { order_id := "R1", payment_status := "paid", delivery_status := "SHIPPED"
    customer_id := some 4, address_id := 6 }

def c3Db : DB :=
  { orders := [c3Order]
    customers := [{ customer_id := 4, name := "N", mobile := "123", email := "e@x" }]
    addresses := [{ address_id := 6, address_line := "L", pincode := "P", city := "C", state_id := 2 }] }

theorem claim_C3_witness :
    reconRun false 11 c3Db [{ number := some "R1" }, { id := some "zz" }] = c3Db ∧
    reconFixPayment true 11 c3Db "R1" c3Order "paid" = c3Db ∧
    reconFixDelivery true 11 c3Db "R1" c3Order "SHIPPED" = c3Db ∧
    reconFixCustomer true 11 c3Db "R1" c3Order ("N ", "123", "e@x") = c3Db ∧
    reconFixAddress true 11 c3Db "R1" c3Order ("N ", "123", "e@x") "L" "P" "C" (some 2) = c3Db ∧
    reconFixItems true c3Db "R1" [] = c3Db :=
  ⟨claim_C3.1 11 c3Db [{ number := some "R1" }, { id := some "zz" }],
   claim_C3.2.1 true 11 c3Db "R1" c3Order "paid" (by decide),
   claim_C3.2.2.2.2.1 true 11 c3Db "R1" c3Order "SHIPPED" (by decide),
   claim_C3.2.2.2.2.2.1 true 11 c3Db "R1" c3Order ("N ", "123", "e@x") 4
     { customer_id := 4, name := "N", mobile := "123", email := "e@x" }
     (by decide) (by decide) (by decide) (by decide) (by decide),
   claim_C3.2.2.2.2.2.2.2.1 true 11 c3Db "R1" c3Order ("N ", "123", "e@x") "L" "P" "C" (some 2)
     { address_id := 6, address_line := "L", pincode := "P", city := "C", state_id := 2 }
     (by decide) (by decide) (by decide) (by decide) (by intro s hs; cases hs; rfl),
   claim_C3.2.2.2.2.2.2.2.2 true c3Db "R1" [] (by decide)⟩

end FastOrderLogic
